import Mathlib

/-!
# mesh-viewer: orbit camera, continuous-input scheduler and input handlers

A shallow embedding of `src/components.c` / `src/components.h` / `src/main.c`.

Modelling conventions.

* C `float` and `double` values are exact rationals (`ℚ`): every arithmetic
  operation is the mathematical one, without rounding.  The constants of
  `components.h` are the decimal numbers written there; in particular `PI` is
  the macro `3.14159`, not the real number π.
* C `int` values are `Int` (pointer coordinates and flags stay far from the
  limits of `int`); a flag is "set" when it is nonzero, as in C.
* The process-wide variables of `components.c` are the fields of `State`.
* `glutTimerFunc` appends a pending timer to `State.timers`; a timer firing
  (`fire`) removes one pending timer and runs its callback.  Timers are never
  cancelled, as in GLUT.
* `glutPostRedisplay` sets the `redisplay` hint.
* `glutGet(GLUT_WINDOW_WIDTH)` / `glutGet(GLUT_WINDOW_HEIGHT)` read the fields
  `window_width` / `window_height`, which belong to the windowing system.
-/

namespace MeshViewer

/-! ## Constants (`components.h`) -/

/-- `#define PI 3.14159` -/
def PI : ℚ := 3.14159

/-- `#define TIME_GAP 15` -/
def TIME_GAP : Nat := 15

/-- `#define ANGULAR_INCREMENT 7e-2f` -/
def ANGULAR_INCREMENT : ℚ := 0.07

/-- `#define MAX_ANGULAR_SPEED 90.0f` -/
def MAX_ANGULAR_SPEED : ℚ := 90

/-- `#define MIN_ANGULAR_SPEED .5f` -/
def MIN_ANGULAR_SPEED : ℚ := 0.5

/-- `#define DRAG_SPEED 4.0f` -/
def DRAG_SPEED : ℚ := 4

/-- `#define WHEEL_SCROLL_SPEED 1.5f` -/
def WHEEL_SCROLL_SPEED : ℚ := 1.5

/-- `#define ARROW_ROT_SPEED 2.5e-2f` -/
def ARROW_ROT_SPEED : ℚ := 0.025

/-- `#define ARROW_ZOOM_SPEED .2f` -/
def ARROW_ZOOM_SPEED : ℚ := 0.2

/-- `#define MAX_RHO 100.0f` -/
def MAX_RHO : ℚ := 100

/-! ## Types (`components.h`) -/

/-- The enum `Camera_movement`. -/
inductive Camera_movement
  | MOVE_UP
  | MOVE_DOWN
  | MOVE_LEFT
  | MOVE_RIGHT
  | MOVE_CLOSE
  | MOVE_AWAY
  deriving DecidableEq

/-- The enum `Speed_variation`. -/
inductive Speed_variation
  | SPEED_INCREMENT
  | SPEED_DECREMENT
  deriving DecidableEq

/-- The struct `Polar_3D`. -/
structure Polar_3D where
  theta : ℚ
  phi : ℚ
  rho : ℚ
  deriving DecidableEq

/-- The struct `Vector_3D`. -/
structure Vector_3D where
  x : ℚ
  y : ℚ
  z : ℚ
  deriving DecidableEq

/-- A pending GLUT timer: the registered callback together with the value it
will be called with.  `move_camera` and `adjust_rotation_speed` are only ever
registered with values of their enums. -/
inductive Timer
  | updateAngle (value : Int)
  | adjust_rotation_speed (dir : Speed_variation)
  | move_camera (dir : Camera_movement)
  deriving DecidableEq

/-- The special keys that `special_key_press` / `special_key_release` switch
on.  The numeric values of the `GLUT_KEY_*` constants come from the GLUT
header; every key that the switches do not name is `other`. -/
inductive Special_key
  | GLUT_KEY_UP
  | GLUT_KEY_DOWN
  | GLUT_KEY_LEFT
  | GLUT_KEY_RIGHT
  | GLUT_KEY_PAGE_UP
  | GLUT_KEY_PAGE_DOWN
  | other (code : Int)
  deriving DecidableEq

/-- The global variables of `components.c` that the event handlers read and
write, the window size reported by GLUT, the GLUT timer queue and redisplay
hint, and one instrumentation field (`move_camera_calls`). -/
structure State where
  /-- `Polar_3D eye` -/
  eye : Polar_3D
  /-- `int moving_camera_h` -/
  moving_camera_h : Int
  /-- `int moving_camera_v` -/
  moving_camera_v : Int
  /-- `int moving_camera_r` -/
  moving_camera_r : Int
  /-- `int adjusting_speed` -/
  adjusting_speed : Int
  /-- `float angle` -/
  angle : ℚ
  /-- `float angularSpeed` -/
  angularSpeed : ℚ
  /-- `int rotate` -/
  rotate : Int
  /-- `int light_rotation` -/
  light_rotation : Int
  /-- `Vector_3D rotation_axis` -/
  rotation_axis : Vector_3D
  /-- `int rotation_sign` -/
  rotation_sign : Int
  /-- `int displayColor` -/
  displayColor : Int
  /-- `int isColored` -/
  isColored : Int
  /-- `int l_button_pressed` -/
  l_button_pressed : Int
  /-- `int last_x` -/
  last_x : Int
  /-- `int last_y` -/
  last_y : Int
  /-- The value of `glutGet(GLUT_WINDOW_WIDTH)`. -/
  window_width : Int
  /-- The value of `glutGet(GLUT_WINDOW_HEIGHT)`. -/
  window_height : Int
  /-- The timers registered with `glutTimerFunc` that have not fired yet,
  oldest first. -/
  timers : List Timer
  /-- Set by `glutPostRedisplay`. -/
  redisplay : Bool
  /-- Instrumentation, not a program variable: the argument of every
  invocation of `move_camera` so far, oldest first. -/
  move_camera_calls : List Camera_movement
  deriving DecidableEq

/-- The state when `glutMainLoop` is entered: the initialisers of
`components.c` (`eye = {}`, `angularSpeed = 3`, `rotate = 1`, ...), the camera
distance `rho` and the flag `colored` left by `init_model` / `parse_file`, the
window size requested in `main` (1920 x 1080), and the one `updateAngle` timer
registered by `main`. -/
def start (rho : ℚ) (colored : Int) : State :=
  { eye := { theta := 0, phi := 0, rho := rho }
    moving_camera_h := 0
    moving_camera_v := 0
    moving_camera_r := 0
    adjusting_speed := 0
    angle := 0
    angularSpeed := 3
    rotate := 1
    light_rotation := 0
    rotation_axis := { x := 0, y := 1, z := 0 }
    rotation_sign := 1
    displayColor := 1
    isColored := colored
    l_button_pressed := 0
    last_x := 0
    last_y := 0
    window_width := 1920
    window_height := 1080
    timers := [Timer.updateAngle 0]
    redisplay := false
    move_camera_calls := [] }

/-! ## Library functions -/

/-- Truncation of a rational towards zero. -/
def trunc (q : ℚ) : Int := if 0 ≤ q then ⌊q⌋ else ⌈q⌉

/-- The C library function `fmod`: `x - n * y` where `n` is `x / y` truncated
towards zero, so that a nonzero result has the sign of `x`. -/
def fmod (x y : ℚ) : ℚ := x - (trunc (x / y) : ℚ) * y

/-- The call `glutTimerFunc(msecs, callback, value)`: registers a timer.  The
queue does not record the delay. -/
def glutTimerFunc (_msecs : Nat) (t : Timer) (s : State) : State :=
  { s with timers := s.timers ++ [t] }

/-- The call `glutPostRedisplay()`. -/
def glutPostRedisplay (s : State) : State :=
  { s with redisplay := true }

/-! ## Timer callbacks (`components.c`) -/

/-- `void updateAngle(int value)` -/
def updateAngle (_value : Int) (s : State) : State :=
  let s := { s with angle := s.angle + s.angularSpeed }
  let s := if s.angle > 360 then { s with angle := fmod s.angle 360 } else s
  let s := if s.rotate ≠ 0 then glutTimerFunc TIME_GAP (Timer.updateAngle 0) s else s
  glutPostRedisplay s

/-- `void adjust_rotation_speed(int dir)` -/
def adjust_rotation_speed (dir : Speed_variation) (s : State) : State :=
  let s :=
    if dir = Speed_variation.SPEED_INCREMENT ∧ s.angularSpeed < MAX_ANGULAR_SPEED then
      { s with angularSpeed := s.angularSpeed + ANGULAR_INCREMENT }
    else s
  let s :=
    if dir = Speed_variation.SPEED_DECREMENT ∧ s.angularSpeed > MIN_ANGULAR_SPEED then
      { s with angularSpeed := s.angularSpeed - ANGULAR_INCREMENT }
    else s
  let s :=
    if s.adjusting_speed ≠ 0 then
      glutTimerFunc TIME_GAP (Timer.adjust_rotation_speed dir) s
    else s
  glutPostRedisplay s

/-- The `switch (dir)` of `move_camera`: the new camera position and the value
of the local `still_moving`. -/
def move_camera_switch (dir : Camera_movement) (s : State) : Polar_3D × Int :=
  match dir with
  | Camera_movement.MOVE_AWAY =>
    (if s.eye.rho + ARROW_ZOOM_SPEED < MAX_RHO then
       { s.eye with rho := s.eye.rho + ARROW_ZOOM_SPEED }
     else s.eye,
     if s.moving_camera_r ≠ 0 then 1 else 0)
  | Camera_movement.MOVE_CLOSE =>
    (if s.eye.rho > ARROW_ROT_SPEED then
       { s.eye with rho := s.eye.rho - ARROW_ZOOM_SPEED }
     else s.eye,
     if s.moving_camera_r ≠ 0 then 1 else 0)
  | Camera_movement.MOVE_UP =>
    (if s.eye.phi + ARROW_ROT_SPEED < PI / 2 then
       { s.eye with phi := s.eye.phi + ARROW_ROT_SPEED }
     else s.eye,
     if s.moving_camera_v ≠ 0 then 1 else 0)
  | Camera_movement.MOVE_DOWN =>
    (if s.eye.phi - ARROW_ROT_SPEED > -PI / 2 then
       { s.eye with phi := s.eye.phi - ARROW_ROT_SPEED }
     else s.eye,
     if s.moving_camera_v ≠ 0 then 1 else 0)
  | Camera_movement.MOVE_RIGHT =>
    let e : Polar_3D := { s.eye with theta := s.eye.theta + ARROW_ROT_SPEED }
    (if e.theta > 2 * PI then { e with theta := fmod e.theta (2 * PI) } else e,
     if s.moving_camera_h ≠ 0 then 1 else 0)
  | Camera_movement.MOVE_LEFT =>
    let e : Polar_3D := { s.eye with theta := s.eye.theta - ARROW_ROT_SPEED }
    (if e.theta < 0 then { e with theta := fmod e.theta (2 * PI) } else e,
     if s.moving_camera_h ≠ 0 then 1 else 0)

/-- `void move_camera(int dir)` -/
def move_camera (dir : Camera_movement) (s : State) : State :=
  let s := { s with move_camera_calls := s.move_camera_calls ++ [dir] }
  let r := move_camera_switch dir s
  let s := { s with eye := r.1 }
  let s := if r.2 ≠ 0 then glutTimerFunc TIME_GAP (Timer.move_camera dir) s else s
  glutPostRedisplay s

/-! ## Input callbacks (`components.c`) -/

/-- `void key(unsigned char key, int x, int y)`.  The result is `none` when the
handler calls `exit`. -/
def key (c : Char) (s : State) : Option State :=
  if c = Char.ofNat 27 ∨ c = 'q' then none
  else if c = '+' then
    if s.adjusting_speed ≠ 0 then some s
    else
      some (glutPostRedisplay
        (adjust_rotation_speed Speed_variation.SPEED_INCREMENT { s with adjusting_speed := 1 }))
  else if c = '-' then
    if s.adjusting_speed ≠ 0 then some s
    else
      some (glutPostRedisplay
        (adjust_rotation_speed Speed_variation.SPEED_DECREMENT { s with adjusting_speed := 1 }))
  else if c = ' ' then
    let s1 := if s.rotate = 0 then glutTimerFunc TIME_GAP (Timer.updateAngle 0) s else s
    some (glutPostRedisplay { s1 with rotate := if s1.rotate = 0 then 1 else 0 })
  else some (glutPostRedisplay s)

/-- `void key_release(unsigned char key, int x, int y)` -/
def key_release (c : Char) (s : State) : State :=
  if c = '+' ∨ c = '-' then { s with adjusting_speed := 0 } else s

/-- `void special_key_press(int key, int x, int y)` -/
def special_key_press (k : Special_key) (s : State) : State :=
  let s :=
    match k with
    | Special_key.GLUT_KEY_UP =>
      move_camera Camera_movement.MOVE_DOWN { s with moving_camera_v := 1 }
    | Special_key.GLUT_KEY_DOWN =>
      move_camera Camera_movement.MOVE_UP { s with moving_camera_v := 1 }
    | Special_key.GLUT_KEY_LEFT =>
      move_camera Camera_movement.MOVE_RIGHT { s with moving_camera_h := 1 }
    | Special_key.GLUT_KEY_RIGHT =>
      move_camera Camera_movement.MOVE_LEFT { s with moving_camera_h := 1 }
    | Special_key.GLUT_KEY_PAGE_UP =>
      move_camera Camera_movement.MOVE_AWAY { s with moving_camera_r := 1 }
    | Special_key.GLUT_KEY_PAGE_DOWN =>
      move_camera Camera_movement.MOVE_CLOSE { s with moving_camera_r := 1 }
    | Special_key.other _ => s
  glutPostRedisplay s

/-- `void special_key_release(int key, int x, int y)` -/
def special_key_release (k : Special_key) (s : State) : State :=
  let s :=
    match k with
    | Special_key.GLUT_KEY_DOWN => { s with moving_camera_v := 0 }
    | Special_key.GLUT_KEY_UP => { s with moving_camera_v := 0 }
    | Special_key.GLUT_KEY_RIGHT => { s with moving_camera_h := 0 }
    | Special_key.GLUT_KEY_LEFT => { s with moving_camera_h := 0 }
    | Special_key.GLUT_KEY_PAGE_UP => { s with moving_camera_r := 0 }
    | Special_key.GLUT_KEY_PAGE_DOWN => { s with moving_camera_r := 0 }
    | Special_key.other _ => s
  glutPostRedisplay s

/-- `void passive_mouse_motion(int x, int y)` -/
def passive_mouse_motion (x y : Int) (s : State) : State :=
  { s with last_x := x, last_y := y }

/-- The local `delta_theta` of `mouse_motion`.  The window width is positive
for a real window; for a width of 0 the C division is by zero, which this
definition does not model (`x / 0 = 0` here). -/
def delta_theta (x : Int) (s : State) : ℚ :=
  -(((x - s.last_x : Int) : ℚ)) / (s.window_width : ℚ) * 2 * DRAG_SPEED

/-- The local `delta_phi` of `mouse_motion`.  The window height is positive
for a real window.  For a height of 0 the C quotient is an infinity or a NaN,
which fails the guard on `eye.phi` in `mouse_motion`; here `x / 0 = 0`, which
passes the guard and adds 0: `eye.phi` is unchanged either way. -/
def delta_phi (y : Int) (s : State) : ℚ :=
  (((y - s.last_y : Int) : ℚ)) / (s.window_height : ℚ) * DRAG_SPEED

/-- `void mouse_motion(int x, int y)` -/
def mouse_motion (x y : Int) (s : State) : State :=
  if s.l_button_pressed ≠ 0 then
    let dtheta := delta_theta x s
    let dphi := delta_phi y s
    let s := { s with eye := { s.eye with theta := s.eye.theta + dtheta } }
    let s := if |s.eye.theta| > PI then { s with angle := fmod s.angle PI } else s
    let s :=
      if s.eye.phi + dphi > -PI / 2 ∧ s.eye.phi + dphi < PI / 2 then
        { s with eye := { s.eye with phi := s.eye.phi + dphi } }
      else s
    let s := { s with last_x := x, last_y := y }
    glutPostRedisplay s
  else s

/-- A timer firing: if `t` is pending, it is removed from the queue and its
callback runs; `none` if `t` is not pending. -/
def fire (t : Timer) (s : State) : Option State :=
  if t ∈ s.timers then
    let s := { s with timers := s.timers.erase t }
    match t with
    | Timer.updateAngle v => some (updateAngle v s)
    | Timer.adjust_rotation_speed d => some (adjust_rotation_speed d s)
    | Timer.move_camera d => some (move_camera d s)
  else none

/-! ## Call sequences used in the statements -/

/-- The calls that write `eye.phi`: `move_camera(MOVE_UP)`,
`move_camera(MOVE_DOWN)` and `mouse_motion(x, y)`. -/
inductive Latitude_call
  | move_up
  | move_down
  | drag (x y : Int)

/-- Runs one latitude call. -/
def Latitude_call.run : Latitude_call → State → State
  | Latitude_call.move_up, s => move_camera Camera_movement.MOVE_UP s
  | Latitude_call.move_down, s => move_camera Camera_movement.MOVE_DOWN s
  | Latitude_call.drag x y, s => mouse_motion x y s

/-- The amount the call tries to add to `eye.phi`: plus or minus
`ARROW_ROT_SPEED` for the keyboard moves, `delta_phi` for a drag. -/
def Latitude_call.step : Latitude_call → State → ℚ
  | Latitude_call.move_up, _ => ARROW_ROT_SPEED
  | Latitude_call.move_down, _ => -ARROW_ROT_SPEED
  | Latitude_call.drag _ y, s => delta_phi y s

/-- Runs a sequence of latitude calls, first call first. -/
def run_latitude_calls (cs : List Latitude_call) (s : State) : State :=
  cs.foldl (fun t c => c.run t) s

/-- The held flag that `move_camera(dir)` copies into `still_moving`: the flag
of the category (radial, vertical, horizontal) of `dir`. -/
def held_flag (dir : Camera_movement) (s : State) : Int :=
  match dir with
  | Camera_movement.MOVE_AWAY => s.moving_camera_r
  | Camera_movement.MOVE_CLOSE => s.moving_camera_r
  | Camera_movement.MOVE_UP => s.moving_camera_v
  | Camera_movement.MOVE_DOWN => s.moving_camera_v
  | Camera_movement.MOVE_RIGHT => s.moving_camera_h
  | Camera_movement.MOVE_LEFT => s.moving_camera_h

/-- The direction that `special_key_press(key)` hands to `move_camera`, for
the six keys its switch names. -/
def press_direction : Special_key → Option Camera_movement
  | Special_key.GLUT_KEY_UP => some Camera_movement.MOVE_DOWN
  | Special_key.GLUT_KEY_DOWN => some Camera_movement.MOVE_UP
  | Special_key.GLUT_KEY_LEFT => some Camera_movement.MOVE_RIGHT
  | Special_key.GLUT_KEY_RIGHT => some Camera_movement.MOVE_LEFT
  | Special_key.GLUT_KEY_PAGE_UP => some Camera_movement.MOVE_AWAY
  | Special_key.GLUT_KEY_PAGE_DOWN => some Camera_movement.MOVE_CLOSE
  | Special_key.other _ => none

/-- The number of `move_camera` timers of the category of `dir` in a timer
queue. -/
def pending_in (dir : Camera_movement) (l : List Timer) : Nat :=
  match dir with
  | Camera_movement.MOVE_AWAY | Camera_movement.MOVE_CLOSE =>
    l.count (Timer.move_camera Camera_movement.MOVE_AWAY) +
      l.count (Timer.move_camera Camera_movement.MOVE_CLOSE)
  | Camera_movement.MOVE_UP | Camera_movement.MOVE_DOWN =>
    l.count (Timer.move_camera Camera_movement.MOVE_UP) +
      l.count (Timer.move_camera Camera_movement.MOVE_DOWN)
  | Camera_movement.MOVE_RIGHT | Camera_movement.MOVE_LEFT =>
    l.count (Timer.move_camera Camera_movement.MOVE_RIGHT) +
      l.count (Timer.move_camera Camera_movement.MOVE_LEFT)

/-- The number of pending `move_camera` timers of the category of `dir`. -/
def pending_moves (dir : Camera_movement) (s : State) : Nat :=
  pending_in dir s.timers

/-- The timer `t` fires `n` times in a row, with no other callback in between;
`none` if at some point `t` is not pending. -/
def fire_times (t : Timer) : Nat → State → Option State
  | 0, s => some s
  | n + 1, s => (fire t s).bind (fire_times t n)

/-- The state of the drag scenario: program start, then the left button is
held with the pointer last seen at `(100, 100)` in a window 1000 wide. -/
def drag_scenario : State :=
  { start 10 1 with
    l_button_pressed := 1
    last_x := 100
    last_y := 100
    window_width := 1000 }

/-! ## Mouse buttons and menus (`components.c`) -/

/-- The value of `GLUT_LEFT_BUTTON` in the GLUT header. -/
def GLUT_LEFT_BUTTON : Int := 0

/-- The value of `GLUT_RIGHT_BUTTON` in the GLUT header. -/
def GLUT_RIGHT_BUTTON : Int := 2

/-- The value of `GLUT_DOWN` in the GLUT header. -/
def GLUT_DOWN : Int := 0

/-- The value of `GLUT_UP` in the GLUT header. -/
def GLUT_UP : Int := 1

/-- `void mouse(int button, int state, int x, int y)`.  The two wheel cases
`return` on `GLUT_UP`, before the `glutPostRedisplay` that ends the handler. -/
def mouse (button state : Int) (s : State) : State :=
  if button = GLUT_LEFT_BUTTON then
    glutPostRedisplay
      (if state = GLUT_DOWN then { s with l_button_pressed := 1 }
       else { s with l_button_pressed := 0 })
  else if button = GLUT_RIGHT_BUTTON then glutPostRedisplay s
  else if button = 3 then
    if state = GLUT_UP then s
    else
      glutPostRedisplay
        (if s.eye.rho < MAX_RHO then
           { s with eye := { s.eye with rho := s.eye.rho + WHEEL_SCROLL_SPEED } }
         else s)
  else if button = 4 then
    if state = GLUT_UP then s
    else
      glutPostRedisplay
        (if s.eye.rho > WHEEL_SCROLL_SPEED then
           { s with eye := { s.eye with rho := s.eye.rho - WHEEL_SCROLL_SPEED } }
         else s)
  else glutPostRedisplay s

/-- `void menuCallback(int value)`.  Entries 1, 2 and 3 call `glPolygonMode`,
which acts on the OpenGL state and on no program variable; entry 7 calls
`exit` (result `none`). -/
def menuCallback (value : Int) (s : State) : Option State :=
  if value = 1 then some s
  else if value = 2 then some s
  else if value = 3 then some s
  else if value = 4 then some { s with displayColor := if s.displayColor = 0 then 1 else 0 }
  else if value = 5 then some { s with light_rotation := if s.light_rotation = 0 then 1 else 0 }
  else if value = 6 then some { s with rotation_sign := s.rotation_sign * -1 }
  else if value = 7 then none
  else some s

/-- `void axisSubmenuCallback(int value)` -/
def axisSubmenuCallback (value : Int) (s : State) : State :=
  if value = 1 then { s with rotation_axis := { x := 1, y := 0, z := 0 } }
  else if value = 2 then { s with rotation_axis := { x := 0, y := 1, z := 0 } }
  else if value = 3 then { s with rotation_axis := { x := 0, y := 0, z := 1 } }
  else if value = 4 then
    { s with rotation_axis :=
        { s.rotation_axis with x := if s.rotation_axis.x = 0 then 1 else 0 } }
  else if value = 5 then
    { s with rotation_axis :=
        { s.rotation_axis with y := if s.rotation_axis.y = 0 then 1 else 0 } }
  else if value = 6 then
    { s with rotation_axis :=
        { s.rotation_axis with z := if s.rotation_axis.z = 0 then 1 else 0 } }
  else s

/-- The entries that `createGLUTMenu` adds to the axis submenu, in order, as
label and value. -/
def axis_submenu_entries : List (String × Int) :=
  [("X axis", 1), ("Y axis", 2), ("Z axis", 3), ("Commute X component", 4),
   ("Commute Y component", 5), ("Commute Z component", 6)]

/-- The entries with a value that `createGLUTMenu` adds to the main menu, in
order, as label and value (the submenu link "Rotation axis" carries no
value).  Entry 4 is added only if `isColored` is nonzero. -/
def createGLUTMenu (s : State) : List (String × Int) :=
  [("Show boundary edges", 1), ("Show vertices", 2), ("Show polygons surface", 3)] ++
  (if s.isColored ≠ 0 then [("Enable/disable color", 4)] else []) ++
  [("Fixed/rotating light", 5), ("Rotate clockwise/counterclockwise", 6), ("Exit", 7)]

/-- The condition `isColored && displayColor` under which `display` enables
and sets the color array. -/
def display_uses_color (s : State) : Bool :=
  decide (s.isColored ≠ 0 ∧ s.displayColor ≠ 0)

/-! ## The event loop -/

/-- One callback dispatched by `glutMainLoop`. -/
inductive Event
  | key (c : Char)
  | key_release (c : Char)
  | special_key_press (k : Special_key)
  | special_key_release (k : Special_key)
  | mouse (button state : Int)
  | passive_mouse_motion (x y : Int)
  | mouse_motion (x y : Int)
  | menu (value : Int)
  | axis_submenu (value : Int)
  | timer (t : Timer)
  | window (w h : Int)

/-- Runs the callback of an event.  A menu event is possible only for an entry
that `createGLUTMenu` has added, a timer event only for a pending timer;
`window` is a change of the window size by the windowing system (the callback
`resize` makes OpenGL calls only).  The result is `none` when the event is not
possible or the callback calls `exit`. -/
def dispatch (e : Event) (s : State) : Option State :=
  match e with
  | Event.key c => key c s
  | Event.key_release c => some (key_release c s)
  | Event.special_key_press k => some (special_key_press k s)
  | Event.special_key_release k => some (special_key_release k s)
  | Event.mouse button state => some (mouse button state s)
  | Event.passive_mouse_motion x y => some (passive_mouse_motion x y s)
  | Event.mouse_motion x y => some (mouse_motion x y s)
  | Event.menu value =>
    if value ∈ (createGLUTMenu s).map Prod.snd then menuCallback value s else none
  | Event.axis_submenu value =>
    if value ∈ axis_submenu_entries.map Prod.snd then some (axisSubmenuCallback value s)
    else none
  | Event.timer t => fire t s
  | Event.window w h => some { s with window_width := w, window_height := h }

/-- The states that the event loop can reach from `s0`. -/
inductive Reachable (s0 : State) : State → Prop
  | start : Reachable s0 s0
  | step (e : Event) (s t : State) : Reachable s0 s → dispatch e s = some t → Reachable s0 t

/-- The program variables of the display mode: `isColored`, `displayColor`,
`light_rotation`, `rotation_sign` and `rotation_axis`. -/
def display_mode (s : State) : Int × Int × Int × Int × Vector_3D :=
  (s.isColored, s.displayColor, s.light_rotation, s.rotation_sign, s.rotation_axis)

/-! ## Loading the model (`parse_file`, `init_model`) -/

/-- The value of `FLT_MAX` in `<float.h>`. -/
def FLT_MAX : ℚ := 340282346638528859811704183484516925440

/-- `#define INITIAL_DISTANCE_RATIO 5.0f` -/
def INITIAL_DISTANCE_RATIO : ℚ := 5

/-- `#define MIN_BB_RADIUS 2.0f` -/
def MIN_BB_RADIUS : ℚ := 2

/-- The global variables of `components.c` that `parse_file` and `init_model`
write before the event loop starts.  A buffer is the list of its cells; the
`NULL` pointer is the empty list.  `eye` and `isColored` are the variables of
the same name in `State`: the event loop starts from
`start eye.rho isColored`. -/
structure Model where
  /-- `GLuint *indices` -/
  indices : List Nat
  /-- `GLfloat *color` -/
  color : List ℚ
  /-- `GLfloat *vertexp` -/
  vertexp : List ℚ
  /-- `GLfloat *normals` -/
  normals : List ℚ
  /-- `int n_vertex` -/
  n_vertex : Int
  /-- `int n_faces` -/
  n_faces : Int
  /-- `int isColored` -/
  isColored : Int
  /-- `float max_coord[3]` -/
  max_coord : Fin 3 → ℚ
  /-- `float min_coord[3]` -/
  min_coord : Fin 3 → ℚ
  /-- `Vector_3D center` -/
  center : Vector_3D
  /-- `float bb_radius` -/
  bb_radius : ℚ
  /-- `Polar_3D eye` -/
  eye : Polar_3D

/-- The initialisers of `components.c`. -/
def initial_model : Model :=
  { indices := []
    color := []
    vertexp := []
    normals := []
    n_vertex := 0
    n_faces := 0
    isColored := 1
    max_coord := fun _ => -FLT_MAX
    min_coord := fun _ => FLT_MAX
    center := { x := 0, y := 0, z := 0 }
    bb_radius := 0
    eye := { theta := 0, phi := 0, rho := 0 } }

/-- The loop `for (i = 0; i < n; i++) color[i] /= 255;` of `init_model`: the
first `n` cells of the buffer are divided by 255. -/
def scale_colors : Nat → List ℚ → List ℚ
  | 0, cs => cs
  | _ + 1, [] => []
  | n + 1, c :: cs => c / 255 :: scale_colors n cs

/-- `void init_model(void)`.  The C library function `sqrt` is the parameter
`sqrt`.  (For `bb_radius = 0` the C quotient `MIN_BB_RADIUS / bb_radius` is an
infinity, which `x / 0 = 0` does not model.) -/
def init_model (sqrt : ℚ → ℚ) (m : Model) : Model :=
  let m := { m with center :=
    { x := (m.max_coord 0 + m.min_coord 0) / 2
      y := (m.max_coord 1 + m.min_coord 1) / 2
      z := (m.max_coord 2 + m.min_coord 2) / 2 } }
  let m := { m with bb_radius := 1 / 4 * sqrt (
      (m.max_coord 0 - m.min_coord 0) * (m.max_coord 0 - m.min_coord 0)
    + (m.max_coord 1 - m.min_coord 1) * (m.max_coord 1 - m.min_coord 1)
    + (m.max_coord 2 - m.min_coord 2) * (m.max_coord 2 - m.min_coord 2)) }
  let m := { m with eye := { m.eye with rho := INITIAL_DISTANCE_RATIO * m.bb_radius } }
  let m :=
    if m.bb_radius < MIN_BB_RADIUS then
      { m with eye := { m.eye with rho := m.eye.rho * (MIN_BB_RADIUS / m.bb_radius) } }
    else m
  if m.isColored ≠ 0 then
    { m with color := scale_colors (m.n_vertex * 3).toNat m.color }
  else m

/-- A mesh whose bounding box is 100 wide along x and flat along y and z. -/
def wide_model : Model :=
  { initial_model with
    n_vertex := 2
    n_faces := 1
    isColored := 0
    vertexp := [0, 0, 0, 100, 0, 0]
    normals := [0, 0, 1, 0, 0, 1]
    indices := [0, 1, 0]
    max_coord := fun k => if k = 0 then 100 else 0
    min_coord := fun _ => 0 }

/-- A colored mesh with one vertex of raw color `(255, 0, 51)`. -/
def red_model : Model :=
  { initial_model with
    n_vertex := 1
    n_faces := 1
    isColored := 1
    vertexp := [0, 0, 0]
    normals := [0, 0, 1]
    color := [255, 0, 51]
    indices := [0, 0, 0]
    max_coord := fun _ => 0
    min_coord := fun _ => 0 }

/-- A whitespace-separated token of the input file: a word that is not a
number, an integer numeral, or a numeral with a fractional part. -/
inductive Token
  | word (w : String)
  | int (n : Int)
  | real (q : ℚ)
  deriving DecidableEq

/-- The contents of an input file as `parse_file` reads it: the first line,
then the tokens that follow it. -/
structure Ply_file where
  first_line : String
  tokens : List Token

/-- The call `malloc(sizeof(T) * n)` for an `int n`: a block of `n` cells, or
`none` (the `NULL` pointer) for a negative `n`, whose size wraps around to a
huge value.  The cells, indeterminate in C, hold 0 here; exhaustion of memory
for a nonnegative `n` is not modelled. -/
def malloc {α : Type} [Zero α] (n : Int) : Option (List α) :=
  if 0 ≤ n then some (List.replicate n.toNat 0) else none

/-- The conversion `%d` of `fscanf`: an integer token is read; on any other
token, or at the end of the file, the variable keeps its value `old` and
nothing is read. -/
def scan_d (ts : List Token) (old : Int) : Int × List Token :=
  match ts with
  | Token.int n :: r => (n, r)
  | _ => (old, ts)

/-- The conversion `%u` of `fscanf`, into a 32 bit `GLuint`. -/
def scan_u (ts : List Token) (old : Nat) : Nat × List Token :=
  match ts with
  | Token.int n :: r => ((n % 4294967296).toNat, r)
  | _ => (old, ts)

/-- The conversion `%f` of `fscanf`: reads a numeral of either kind. -/
def scan_f (ts : List Token) (old : ℚ) : ℚ × List Token :=
  match ts with
  | Token.int n :: r => ((n : ℚ), r)
  | Token.real q :: r => (q, r)
  | _ => (old, ts)

/-- How the header loop of `parse_file` ends: it leaves the loop with the
tokens not yet read, `error_handler` exits the process, or it never ends. -/
inductive Header_result
  | done (ts : List Token) (m : Model)
  | exited
  | loops

/-- The `do ... while (strcmp(tmp, "end_header"))` loop of `parse_file`.  Each
iteration reads the next token into `tmp`.  At the end of the file `fscanf`
leaves `tmp` as it is, which is not `"end_header"`, so the loop never ends.
The first argument bounds the number of iterations; every iteration reads at
least one token, so `parse_file` passes the number of tokens. -/
def scan_header : Nat → List Token → Model → Header_result
  | _, [], _ => Header_result.loops
  | 0, _ :: _, _ => Header_result.loops
  | fuel + 1, tmp :: ts, m =>
    match (if tmp = Token.word "vertex" then
        let r := scan_d ts m.n_vertex
        (malloc (r.1 * 3)).bind fun normals =>
          (malloc (r.1 * 3)).map fun vertexp =>
            (({ m with n_vertex := r.1, normals := normals, vertexp := vertexp } : Model), r.2)
      else some (m, ts)) with
    | none => Header_result.exited
    | some (m, ts) =>
      match (if m.isColored = 0 ∧ tmp = Token.word "red" then
          (malloc (m.n_vertex * 3)).map fun color =>
            ({ m with isColored := 1, color := color } : Model)
        else some m) with
      | none => Header_result.exited
      | some m =>
        match (if tmp = Token.word "face" then
            let r := scan_d ts m.n_faces
            (malloc (r.1 * 3)).map fun indices =>
              (({ m with n_faces := r.1, indices := indices } : Model), r.2)
          else some (m, ts)) with
        | none => Header_result.exited
        | some (m, ts) =>
          if tmp = Token.word "end_header" then Header_result.done ts m
          else scan_header fuel ts m

/-- One pass of the loop over `k` that reads a vertex coordinate into
`vertexp[j + k]` and updates `max_coord[k]` and `min_coord[k]`.  (An access
outside a buffer, undefined in C, reads 0 and writes nothing.) -/
def read_coord (j : Nat) (p : Model × List Token) (k : Fin 3) : Model × List Token :=
  let r := scan_f p.2 (p.1.vertexp.getD (j + k) 0)
  let m : Model := { p.1 with vertexp := p.1.vertexp.set (j + k) r.1 }
  let m : Model :=
    if r.1 > m.max_coord k then { m with max_coord := Function.update m.max_coord k r.1 }
    else m
  let m : Model :=
    if r.1 < m.min_coord k then { m with min_coord := Function.update m.min_coord k r.1 }
    else m
  (m, r.2)

/-- One pass of the loop over `k` that reads `normals[j + k]`. -/
def read_normal (j : Nat) (p : Model × List Token) (k : Fin 3) : Model × List Token :=
  let r := scan_f p.2 (p.1.normals.getD (j + k) 0)
  ({ p.1 with normals := p.1.normals.set (j + k) r.1 }, r.2)

/-- One pass of the loop over `k` that reads `color[j + k]`. -/
def read_color (j : Nat) (p : Model × List Token) (k : Fin 3) : Model × List Token :=
  let r := scan_f p.2 (p.1.color.getD (j + k) 0)
  ({ p.1 with color := p.1.color.set (j + k) r.1 }, r.2)

/-- The body of the loop over the vertices, for the vertex stored at `j`. -/
def read_vertex (j : Nat) (p : Model × List Token) : Model × List Token :=
  let p := (List.finRange 3).foldl (read_coord j) p
  let p := (List.finRange 3).foldl (read_normal j) p
  if p.1.isColored ≠ 0 then (List.finRange 3).foldl (read_color j) p else p

/-- The loop over the vertices: `n` iterations starting at position `j`. -/
def read_vertices : Nat → Nat → Model × List Token → Model × List Token
  | 0, _, p => p
  | n + 1, j, p => read_vertices n (j + 3) (read_vertex j p)

/-- The body of the loop over the faces: one token is read as a string, then
three indices into `indices[k]`, `indices[k + 1]`, `indices[k + 2]`. -/
def read_face (k : Nat) (p : Model × List Token) : Model × List Token :=
  (List.range 3).foldl
    (fun q j =>
      let r := scan_u q.2 (q.1.indices.getD (k + j) 0)
      (({ q.1 with indices := q.1.indices.set (k + j) r.1 } : Model), r.2))
    (p.1, p.2.tail)

/-- The loop over the faces: `n` iterations starting at position `k`. -/
def read_faces : Nat → Nat → Model × List Token → Model × List Token
  | 0, _, p => p
  | n + 1, k, p => read_faces n (k + 3) (read_face k p)

/-- How a call of `parse_file` ends: it returns a value, leaving the globals
`m`; `error_handler` exits the process; or it never returns. -/
inductive Parse_result
  | returned (value : Int) (m : Model)
  | exited
  | loops

/-- `int parse_file(char *filename, char *path)`.  The argument `file` is what
`fopen(filename, "r")` finds: `none` if the file cannot be opened. -/
def parse_file (file : Option Ply_file) (m : Model) : Parse_result :=
  match file with
  | none => Parse_result.returned (-1) m
  | some f =>
    if f.first_line ≠ "ply" then Parse_result.returned (-1) m
    else
      match scan_header f.tokens.length f.tokens { m with isColored := 0 } with
      | Header_result.exited => Parse_result.exited
      | Header_result.loops => Parse_result.loops
      | Header_result.done ts m =>
        if m.n_vertex = 0 ∨ m.n_faces = 0 then Parse_result.returned (-1) m
        else
          let p := read_vertices m.n_vertex.toNat 0 (m, ts)
          let p := read_faces p.1.n_faces.toNat 0 p
          Parse_result.returned 0 p.1

/-- A file whose header declares 5 vertices and no faces. -/
def vertex_only_file : Ply_file :=
  { first_line := "ply"
    tokens := [Token.word "element", Token.word "vertex", Token.int 5,
      Token.word "end_header"] }

/-- A file whose header declares 1 face and no vertices. -/
def face_only_file : Ply_file :=
  { first_line := "ply"
    tokens := [Token.word "element", Token.word "face", Token.int 1,
      Token.word "end_header", Token.int 3, Token.int 0, Token.int 1, Token.int 2] }

/-- The globals left by `parse_file` on `vertex_only_file`, starting from the
initial globals. -/
def after_vertex_only : Model :=
  { initial_model with
    isColored := 0
    n_vertex := 5
    normals := List.replicate 15 0
    vertexp := List.replicate 15 0 }

/-- Runs the callbacks of a sequence of events, first event first; `none` as
soon as one of them is not possible or exits. -/
def run_events : List Event → State → Option State
  | [], s => some s
  | e :: es, s => (dispatch e s).bind (run_events es)

/-- The drag scenario with the rotation angle at 4 degrees. -/
def wrap_scenario : State :=
  { drag_scenario with angle := 4 }

/-! ## Theorems -/

theorem move_camera_up_phi (s : State) :
    (move_camera Camera_movement.MOVE_UP s).eye.phi =
      if s.eye.phi + ARROW_ROT_SPEED < PI / 2 then s.eye.phi + ARROW_ROT_SPEED
      else s.eye.phi := by
  simp only [move_camera, move_camera_switch, glutPostRedisplay, glutTimerFunc]
  split_ifs <;> rfl

theorem move_camera_down_phi (s : State) :
    (move_camera Camera_movement.MOVE_DOWN s).eye.phi =
      if s.eye.phi - ARROW_ROT_SPEED > -PI / 2 then s.eye.phi - ARROW_ROT_SPEED
      else s.eye.phi := by
  simp only [move_camera, move_camera_switch, glutPostRedisplay, glutTimerFunc]
  split_ifs <;> rfl

theorem mouse_motion_phi (x y : Int) (s : State) :
    (mouse_motion x y s).eye.phi =
      if s.l_button_pressed ≠ 0 ∧
          (s.eye.phi + delta_phi y s > -PI / 2 ∧ s.eye.phi + delta_phi y s < PI / 2) then
        s.eye.phi + delta_phi y s
      else s.eye.phi := by
  simp only [mouse_motion, glutPostRedisplay]
  split_ifs <;> simp_all

theorem latitude_call_in_range (c : Latitude_call) (t : State)
    (h : -PI / 2 < t.eye.phi ∧ t.eye.phi < PI / 2) :
    -PI / 2 < (c.run t).eye.phi ∧ (c.run t).eye.phi < PI / 2 := by
  obtain ⟨h1, h2⟩ := h
  have hA : (0 : ℚ) < ARROW_ROT_SPEED := by norm_num [ARROW_ROT_SPEED]
  cases c with
  | move_up =>
    rw [Latitude_call.run, move_camera_up_phi]
    split_ifs with hc
    · exact ⟨by linarith, hc⟩
    · exact ⟨h1, h2⟩
  | move_down =>
    rw [Latitude_call.run, move_camera_down_phi]
    split_ifs with hc
    · exact ⟨hc, by linarith⟩
    · exact ⟨h1, h2⟩
  | drag x y =>
    rw [Latitude_call.run, mouse_motion_phi]
    split_ifs with hc
    · exact hc.2
    · exact ⟨h1, h2⟩

theorem latitude_call_rejected (c : Latitude_call) (t : State)
    (h : -PI / 2 < t.eye.phi ∧ t.eye.phi < PI / 2)
    (hout : ¬ (-PI / 2 < t.eye.phi + c.step t ∧ t.eye.phi + c.step t < PI / 2)) :
    (c.run t).eye.phi = t.eye.phi := by
  obtain ⟨h1, h2⟩ := h
  have hA : (0 : ℚ) < ARROW_ROT_SPEED := by norm_num [ARROW_ROT_SPEED]
  cases c with
  | move_up =>
    rw [Latitude_call.run, move_camera_up_phi]
    simp only [Latitude_call.step] at hout
    split_ifs with hc
    · exact absurd ⟨by linarith, hc⟩ hout
    · rfl
  | move_down =>
    rw [Latitude_call.run, move_camera_down_phi]
    simp only [Latitude_call.step] at hout
    split_ifs with hc
    · refine absurd ⟨?_, ?_⟩ hout <;> linarith
    · rfl
  | drag x y =>
    rw [Latitude_call.run, mouse_motion_phi]
    simp only [Latitude_call.step] at hout
    split_ifs with hc
    · exact absurd hc.2 hout
    · rfl

theorem run_latitude_calls_in_range (cs : List Latitude_call) (s : State)
    (h : -PI / 2 < s.eye.phi ∧ s.eye.phi < PI / 2) :
    -PI / 2 < (run_latitude_calls cs s).eye.phi ∧
      (run_latitude_calls cs s).eye.phi < PI / 2 := by
  induction cs generalizing s with
  | nil => exact h
  | cons c cs ih => exact ih (c.run s) (latitude_call_in_range c s h)

theorem PI_lt_pi : ((PI : ℚ) : ℝ) < Real.pi := by
  have h := Real.pi_gt_d6
  have e : ((PI : ℚ) : ℝ) = 3.14159 := by norm_num [PI]
  rw [e]
  norm_num at h ⊢
  linarith

/-- C1. Latitude invariant.  From a state with `-PI/2 < eye.phi < PI/2`, after
every sequence `cs` of `move_camera(MOVE_UP)`, `move_camera(MOVE_DOWN)` and
`mouse_motion` calls `eye.phi` is strictly between `-PI/2` and `PI/2`, hence
strictly between `-π/2` and `π/2` for the real number π; and a further call
`c` whose step would take `eye.phi` out of the interval (either interval)
leaves `eye.phi` unchanged. -/
theorem latitude_invariant (s : State) (cs : List Latitude_call) (c : Latitude_call)
    (h : -PI / 2 < s.eye.phi ∧ s.eye.phi < PI / 2) :
    (-PI / 2 < (run_latitude_calls cs s).eye.phi ∧
      (run_latitude_calls cs s).eye.phi < PI / 2) ∧
    (-Real.pi / 2 < (((run_latitude_calls cs s).eye.phi : ℚ) : ℝ) ∧
      (((run_latitude_calls cs s).eye.phi : ℚ) : ℝ) < Real.pi / 2) ∧
    (¬ (-PI / 2 < (run_latitude_calls cs s).eye.phi + c.step (run_latitude_calls cs s) ∧
        (run_latitude_calls cs s).eye.phi + c.step (run_latitude_calls cs s) < PI / 2) →
      (c.run (run_latitude_calls cs s)).eye.phi = (run_latitude_calls cs s).eye.phi) ∧
    (¬ (-Real.pi / 2 <
          (((run_latitude_calls cs s).eye.phi + c.step (run_latitude_calls cs s) : ℚ) : ℝ) ∧
        (((run_latitude_calls cs s).eye.phi + c.step (run_latitude_calls cs s) : ℚ) : ℝ)
          < Real.pi / 2) →
      (c.run (run_latitude_calls cs s)).eye.phi = (run_latitude_calls cs s).eye.phi) := by
  have hr := run_latitude_calls_in_range cs s h
  have hpi := PI_lt_pi
  have cast_lt : ∀ a b : ℚ, a < b → (a : ℝ) < (b : ℝ) := fun a b hab => by exact_mod_cast hab
  have hup : ∀ a : ℚ, a < PI / 2 → (a : ℝ) < Real.pi / 2 := by
    intro a ha
    have := cast_lt _ _ ha
    push_cast at this
    linarith
  have hlo : ∀ a : ℚ, -PI / 2 < a → -Real.pi / 2 < (a : ℝ) := by
    intro a ha
    have := cast_lt _ _ ha
    push_cast at this
    linarith
  refine ⟨hr, ⟨hlo _ hr.1, hup _ hr.2⟩, latitude_call_rejected c _ hr, ?_⟩
  intro hout
  exact latitude_call_rejected c _ hr (fun hin => hout ⟨hlo _ hin.1, hup _ hin.2⟩)

/-- C1, witness: the program start state satisfies the hypothesis, and after
`move_camera(MOVE_UP)` and a drag call `eye.phi` is below `PI/2`. -/
theorem latitude_invariant_witness :
    (-PI / 2 < (start 10 1).eye.phi ∧ (start 10 1).eye.phi < PI / 2) ∧
    (run_latitude_calls [Latitude_call.move_up, Latitude_call.drag 5 7] (start 10 1)).eye.phi
      < PI / 2 :=
  ⟨by norm_num [start, PI],
   (latitude_invariant (start 10 1) [Latitude_call.move_up, Latitude_call.drag 5 7]
      Latitude_call.move_down (by norm_num [start, PI])).1.2⟩

/-! ### Longitude (C2) -/

/-- C2. At program start (`eye.theta = 0`, inside `[0, 2*PI)`), one
`move_camera(MOVE_LEFT)` yields `eye.theta = -0.025`: `fmod` of a negative
dividend is negative, so the wrap does not bring `theta` back into the range.
The same happens through the handler of the right arrow key. -/
theorem move_left_leaves_range :
    (0 ≤ (start 10 1).eye.theta ∧ (start 10 1).eye.theta < 2 * PI) ∧
    (move_camera Camera_movement.MOVE_LEFT (start 10 1)).eye.theta = -1 / 40 ∧
    (special_key_press Special_key.GLUT_KEY_RIGHT (start 10 1)).eye.theta = -1 / 40 ∧
    ¬ (0 ≤ (move_camera Camera_movement.MOVE_LEFT (start 10 1)).eye.theta) := by
  have e : (move_camera Camera_movement.MOVE_LEFT (start 10 1)).eye.theta = -1 / 40 := by
    simp [move_camera, move_camera_switch, start, glutPostRedisplay, glutTimerFunc, fmod,
      trunc, PI, ARROW_ROT_SPEED]
    norm_num
  refine ⟨by norm_num [start, PI], e, ?_, by rw [e]; norm_num⟩
  simp [special_key_press, move_camera, move_camera_switch, start, glutPostRedisplay,
    glutTimerFunc, fmod, trunc, PI, ARROW_ROT_SPEED]
  norm_num

/-! ### Keyboard zoom (C3) -/

theorem move_camera_close_rho (s : State) :
    (move_camera Camera_movement.MOVE_CLOSE s).eye.rho =
      if s.eye.rho > ARROW_ROT_SPEED then s.eye.rho - ARROW_ZOOM_SPEED else s.eye.rho := by
  simp only [move_camera, move_camera_switch, glutPostRedisplay, glutTimerFunc]
  split_ifs <;> rfl

theorem move_close_iterate_rho (c : Int) (k : ℕ) (hk : k ≤ 50) :
    ((move_camera Camera_movement.MOVE_CLOSE)^[k] (start (101 / 10) c)).eye.rho
      = 101 / 10 - (k : ℚ) / 5 := by
  induction k with
  | zero => simp [start]
  | succ n ih =>
    have hn : (n : ℚ) ≤ 49 := by exact_mod_cast Nat.le_of_succ_le_succ hk
    rw [Function.iterate_succ_apply', move_camera_close_rho, ih (Nat.le_of_succ_le hk)]
    have hg : (101 / 10 - (n : ℚ) / 5) > ARROW_ROT_SPEED := by
      norm_num [ARROW_ROT_SPEED]
      linarith
    rw [if_pos hg]
    norm_num [ARROW_ZOOM_SPEED]
    ring

/-- C3. With the initial distance `rho = 10.1`, fifty `move_camera(MOVE_CLOSE)`
calls reach `rho = 0.1`, which is inside `(0, MAX_RHO]`; the next call passes
the guard `rho > ARROW_ROT_SPEED` and subtracts `ARROW_ZOOM_SPEED`, giving
`rho = -0.1`. -/
theorem move_close_leaves_range :
    ((move_camera Camera_movement.MOVE_CLOSE)^[50] (start (101 / 10) 1)).eye.rho = 1 / 10 ∧
    (0 < (1 / 10 : ℚ) ∧ (1 / 10 : ℚ) ≤ MAX_RHO) ∧
    (move_camera Camera_movement.MOVE_CLOSE
      ((move_camera Camera_movement.MOVE_CLOSE)^[50] (start (101 / 10) 1))).eye.rho = -1 / 10 := by
  refine ⟨?_, by norm_num [MAX_RHO], ?_⟩
  · rw [move_close_iterate_rho 1 50 (by norm_num)]
    norm_num
  · rw [move_camera_close_rho, move_close_iterate_rho 1 50 (by norm_num)]
    norm_num [ARROW_ROT_SPEED, ARROW_ZOOM_SPEED]

/-! ### Angular speed (C4) -/

theorem adjust_increment_speed (s : State) :
    (adjust_rotation_speed Speed_variation.SPEED_INCREMENT s).angularSpeed =
      if s.angularSpeed < MAX_ANGULAR_SPEED then s.angularSpeed + ANGULAR_INCREMENT
      else s.angularSpeed := by
  simp only [adjust_rotation_speed, glutPostRedisplay, glutTimerFunc]
  split_ifs <;> simp_all

theorem adjust_decrement_speed (s : State) :
    (adjust_rotation_speed Speed_variation.SPEED_DECREMENT s).angularSpeed =
      if s.angularSpeed > MIN_ANGULAR_SPEED then s.angularSpeed - ANGULAR_INCREMENT
      else s.angularSpeed := by
  simp only [adjust_rotation_speed, glutPostRedisplay, glutTimerFunc]
  split_ifs <;> simp_all

theorem increment_iterate_speed (r : ℚ) (c : Int) (k : ℕ) (hk : k ≤ 1242) :
    ((adjust_rotation_speed Speed_variation.SPEED_INCREMENT)^[k] (start r c)).angularSpeed
      = 3 + 7 / 100 * (k : ℚ) := by
  induction k with
  | zero => simp [start]
  | succ n ih =>
    have hn : (n : ℚ) ≤ 1241 := by exact_mod_cast Nat.le_of_succ_le_succ hk
    rw [Function.iterate_succ_apply', adjust_increment_speed, ih (Nat.le_of_succ_le hk)]
    have hg : (3 + 7 / 100 * (n : ℚ)) < MAX_ANGULAR_SPEED := by
      norm_num [MAX_ANGULAR_SPEED]
      linarith
    rw [if_pos hg]
    norm_num [ANGULAR_INCREMENT]
    ring

/-- C4. From the initial `angularSpeed = 3`, after 1242 calls of
`adjust_rotation_speed(SPEED_INCREMENT)` the speed is `89.94`, inside
`[MIN_ANGULAR_SPEED, MAX_ANGULAR_SPEED]`; the next call passes the guard
`angularSpeed < MAX_ANGULAR_SPEED` and yields `90.01 > MAX_ANGULAR_SPEED`.
Symmetrically a decrement from `0.55` yields `0.48 < MIN_ANGULAR_SPEED`. -/
theorem speed_increment_leaves_range :
    ((adjust_rotation_speed Speed_variation.SPEED_INCREMENT)^[1242] (start 10 1)).angularSpeed
      = 8994 / 100 ∧
    (MIN_ANGULAR_SPEED ≤ (8994 / 100 : ℚ) ∧ (8994 / 100 : ℚ) ≤ MAX_ANGULAR_SPEED) ∧
    (adjust_rotation_speed Speed_variation.SPEED_INCREMENT
      ((adjust_rotation_speed Speed_variation.SPEED_INCREMENT)^[1242] (start 10 1))).angularSpeed
      = 9001 / 100 ∧
    MAX_ANGULAR_SPEED < (9001 / 100 : ℚ) ∧
    (adjust_rotation_speed Speed_variation.SPEED_DECREMENT
      { start 10 1 with angularSpeed := 55 / 100 }).angularSpeed = 48 / 100 ∧
    (48 / 100 : ℚ) < MIN_ANGULAR_SPEED := by
  refine ⟨?_, by norm_num [MIN_ANGULAR_SPEED, MAX_ANGULAR_SPEED], ?_,
    by norm_num [MAX_ANGULAR_SPEED], ?_, by norm_num [MIN_ANGULAR_SPEED]⟩
  · rw [increment_iterate_speed 10 1 1242 (by norm_num)]
    norm_num
  · rw [adjust_increment_speed, increment_iterate_speed 10 1 1242 (by norm_num)]
    norm_num [MAX_ANGULAR_SPEED, ANGULAR_INCREMENT]
  · rw [adjust_decrement_speed]
    norm_num [MIN_ANGULAR_SPEED, ANGULAR_INCREMENT]

/-! ### Rotation angle (C5) -/

theorem fmod_range (x y : ℚ) (hx : 0 ≤ x) (hy : 0 < y) :
    0 ≤ fmod x y ∧ fmod x y < y := by
  have hq : 0 ≤ x / y := div_nonneg hx hy.le
  have h1 : ((⌊x / y⌋ : Int) : ℚ) * y ≤ x := by
    have := Int.floor_le (x / y)
    calc ((⌊x / y⌋ : Int) : ℚ) * y ≤ x / y * y := by
          exact mul_le_mul_of_nonneg_right this hy.le
      _ = x := div_mul_cancel₀ x hy.ne.symm
  have h2 : x < (((⌊x / y⌋ : Int) : ℚ) + 1) * y := by
    have := Int.lt_floor_add_one (x / y)
    calc x = x / y * y := (div_mul_cancel₀ x hy.ne.symm).symm
      _ < (((⌊x / y⌋ : Int) : ℚ) + 1) * y := by
          exact mul_lt_mul_of_pos_right this hy
  simp only [fmod, trunc, if_pos hq]
  constructor <;> linarith

theorem updateAngle_angle (v : Int) (s : State) :
    (updateAngle v s).angle =
      if s.angle + s.angularSpeed > 360 then fmod (s.angle + s.angularSpeed) 360
      else s.angle + s.angularSpeed := by
  simp only [updateAngle, glutPostRedisplay, glutTimerFunc]
  split_ifs <;> rfl

theorem updateAngle_angularSpeed (v : Int) (s : State) :
    (updateAngle v s).angularSpeed = s.angularSpeed := by
  simp only [updateAngle, glutPostRedisplay, glutTimerFunc]
  split_ifs <;> rfl

theorem updateAngle_iterate_angularSpeed (v : Int) (s : State) (k : ℕ) :
    ((updateAngle v)^[k] s).angularSpeed = s.angularSpeed := by
  induction k with
  | zero => rfl
  | succ n ih => rw [Function.iterate_succ_apply', updateAngle_angularSpeed, ih]

theorem updateAngle_step_range (v : Int) (s : State)
    (ha : 0 ≤ s.angle ∧ s.angle ≤ 360) (hs : 0 ≤ s.angularSpeed) :
    0 ≤ (updateAngle v s).angle ∧ (updateAngle v s).angle ≤ 360 := by
  rw [updateAngle_angle]
  split_ifs with hc
  · have := fmod_range (s.angle + s.angularSpeed) 360 (by linarith [ha.1]) (by norm_num)
    exact ⟨this.1, this.2.le⟩
  · exact ⟨by linarith [ha.1], by linarith⟩

theorem updateAngle_iterate_range (v : Int) (s : State) (k : ℕ)
    (ha : 0 ≤ s.angle ∧ s.angle ≤ 360) (hs : 0 ≤ s.angularSpeed) :
    0 ≤ ((updateAngle v)^[k] s).angle ∧ ((updateAngle v)^[k] s).angle ≤ 360 := by
  induction k with
  | zero => exact ha
  | succ n ih =>
    rw [Function.iterate_succ_apply']
    exact updateAngle_step_range v _ ih (by rw [updateAngle_iterate_angularSpeed]; exact hs)

theorem updateAngle_iterate_start (r : ℚ) (c : Int) (k : ℕ) (hk : k ≤ 120) :
    ((updateAngle 0)^[k] (start r c)).angle = 3 * (k : ℚ) := by
  induction k with
  | zero => simp [start]
  | succ n ih =>
    have hn : (n : ℚ) ≤ 119 := by exact_mod_cast Nat.le_of_succ_le_succ hk
    rw [Function.iterate_succ_apply', updateAngle_angle, updateAngle_iterate_angularSpeed,
      ih (Nat.le_of_succ_le hk)]
    have hs : (start r c).angularSpeed = 3 := rfl
    rw [hs, if_neg (by linarith)]
    push_cast
    ring

/-- C5, counterexample. Starting from `angle = 0` with `angularSpeed = 3`, the
120th of the 130 `updateAngle` ticks leaves `angle = 360`: the test
`angle > 360.0f` does not wrap the value 360 itself, so `angle < 360` fails. -/
theorem updateAngle_reaches_360 :
    (start 10 1).angle = 0 ∧ (start 10 1).angularSpeed = 3 ∧ 120 ≤ 130 ∧
    ((updateAngle 0)^[120] (start 10 1)).angle = 360 ∧
    ¬ (((updateAngle 0)^[120] (start 10 1)).angle < 360) := by
  have e := updateAngle_iterate_start 10 1 120 (le_refl _)
  refine ⟨rfl, rfl, by norm_num, ?_, ?_⟩
  · rw [e]; norm_num
  · rw [e]; norm_num

/-- C5, amended. For every `angle` in the closed interval `[0, 360]` and every
`angularSpeed` in `[MIN_ANGULAR_SPEED, MAX_ANGULAR_SPEED]`, every number `k` of
`updateAngle` ticks yields an `angle` in `[0, 360]`; in particular this holds
after each of the first 130 ticks from `angle = 0`, `angularSpeed = 3`. -/
theorem updateAngle_range_closed :
    (∀ (s : State) (v : Int) (k : ℕ),
      (0 ≤ s.angle ∧ s.angle ≤ 360) →
      (MIN_ANGULAR_SPEED ≤ s.angularSpeed ∧ s.angularSpeed ≤ MAX_ANGULAR_SPEED) →
      (0 ≤ ((updateAngle v)^[k] s).angle ∧ ((updateAngle v)^[k] s).angle ≤ 360)) ∧
    (∀ (r : ℚ) (c : Int) (k : ℕ), k ≤ 130 →
      (0 ≤ ((updateAngle 0)^[k] (start r c)).angle ∧
        ((updateAngle 0)^[k] (start r c)).angle ≤ 360)) := by
  constructor
  · intro s v k ha hs
    refine updateAngle_iterate_range v s k ha ?_
    have : (0 : ℚ) ≤ MIN_ANGULAR_SPEED := by norm_num [MIN_ANGULAR_SPEED]
    linarith [hs.1]
  · intro r c k _
    exact updateAngle_iterate_range 0 (start r c) k (by norm_num [start]) (by norm_num [start])

/-- C5, witness: the program start state satisfies both hypotheses, and after
130 ticks the angle lies in `[0, 360]`. -/
theorem updateAngle_range_closed_witness :
    ((0 : ℚ) ≤ (start 10 1).angle ∧ (start 10 1).angle ≤ 360) ∧
    (MIN_ANGULAR_SPEED ≤ (start 10 1).angularSpeed ∧
      (start 10 1).angularSpeed ≤ MAX_ANGULAR_SPEED) ∧
    (0 ≤ ((updateAngle 0)^[130] (start 10 1)).angle ∧
      ((updateAngle 0)^[130] (start 10 1)).angle ≤ 360) :=
  ⟨by norm_num [start], by norm_num [start, MIN_ANGULAR_SPEED, MAX_ANGULAR_SPEED],
   updateAngle_range_closed.1 (start 10 1) 0 130 (by norm_num [start])
     (by norm_num [start, MIN_ANGULAR_SPEED, MAX_ANGULAR_SPEED])⟩

/-! ### The scheduler (C6, C7) -/

theorem move_camera_timers (d : Camera_movement) (s : State) :
    (move_camera d s).timers =
      if held_flag d s ≠ 0 then s.timers ++ [Timer.move_camera d] else s.timers := by
  cases d <;>
    simp only [move_camera, move_camera_switch, held_flag, glutPostRedisplay, glutTimerFunc] <;>
    split_ifs <;> simp_all

theorem move_camera_calls_append (d : Camera_movement) (s : State) :
    (move_camera d s).move_camera_calls = s.move_camera_calls ++ [d] := by
  cases d <;>
    simp only [move_camera, move_camera_switch, glutPostRedisplay, glutTimerFunc] <;>
    split_ifs <;> rfl

theorem move_camera_held_flag (d e : Camera_movement) (s : State) :
    held_flag e (move_camera d s) = held_flag e s := by
  cases d <;> cases e <;>
    simp only [move_camera, move_camera_switch, held_flag, glutPostRedisplay, glutTimerFunc] <;>
    split_ifs <;> rfl

theorem move_camera_eye (d : Camera_movement) (s : State) :
    (move_camera d s).eye = (move_camera_switch d s).1 := by
  simp only [move_camera, glutPostRedisplay, glutTimerFunc]
  split_ifs <;> rfl

theorem move_camera_switch_eye (d : Camera_movement) (s t : State) (h : t.eye = s.eye) :
    (move_camera_switch d s).1 = (move_camera_switch d t).1 := by
  cases d <;> simp only [move_camera_switch, h]

theorem pending_in_append (d : Camera_movement) (l : List Timer) :
    pending_in d (l ++ [Timer.move_camera d]) = pending_in d l + 1 := by
  cases d <;> simp [pending_in, List.count_append] <;> omega

theorem pending_in_erase (d : Camera_movement) (l : List Timer)
    (h : Timer.move_camera d ∈ l) :
    pending_in d (l.erase (Timer.move_camera d)) + 1 = pending_in d l := by
  have hc : 0 < l.count (Timer.move_camera d) := List.count_pos_iff.mpr h
  cases d <;> simp [pending_in, List.count_erase_self, List.count_erase_of_ne] <;> omega

theorem mem_of_pending_in (d : Camera_movement) (l : List Timer)
    (h1 : pending_in d l = 1) (h2 : Timer.move_camera d ∈ l) :
    pending_in d (l.erase (Timer.move_camera d)) = 0 := by
  have := pending_in_erase d l h2
  omega

theorem not_mem_of_pending_in (d : Camera_movement) (l : List Timer)
    (h : pending_in d l = 0) : Timer.move_camera d ∉ l := by
  intro hm
  have hc : 0 < l.count (Timer.move_camera d) := List.count_pos_iff.mpr hm
  cases d <;> simp only [pending_in] at h <;> omega

theorem fire_move_camera (d : Camera_movement) (t : State)
    (hm : Timer.move_camera d ∈ t.timers) :
    fire (Timer.move_camera d) t =
      some (move_camera d { t with timers := t.timers.erase (Timer.move_camera d) }) := by
  simp only [fire, if_pos hm]

theorem fire_active (d : Camera_movement) (t : State)
    (hf : held_flag d t ≠ 0) (hp : pending_moves d t = 1)
    (hm : Timer.move_camera d ∈ t.timers) :
    ∃ u, fire (Timer.move_camera d) t = some u ∧ held_flag d u ≠ 0 ∧
      u.move_camera_calls = t.move_camera_calls ++ [d] ∧
      pending_moves d u = 1 ∧ Timer.move_camera d ∈ u.timers := by
  have hf2 : held_flag d { t with timers := t.timers.erase (Timer.move_camera d) } ≠ 0 := by
    cases d <;> exact hf
  refine ⟨_, fire_move_camera d t hm, ?_, ?_, ?_, ?_⟩
  · rw [move_camera_held_flag]; exact hf2
  · rw [move_camera_calls_append]
  · rw [pending_moves, move_camera_timers, if_pos hf2, pending_in_append]
    have := mem_of_pending_in d t.timers hp hm
    simp only [this]
  · rw [move_camera_timers, if_pos hf2]
    simp

theorem fire_times_active (d : Camera_movement) (n : ℕ) (t : State)
    (hf : held_flag d t ≠ 0) (hp : pending_moves d t = 1)
    (hm : Timer.move_camera d ∈ t.timers) :
    ∃ u, fire_times (Timer.move_camera d) n t = some u ∧ held_flag d u ≠ 0 ∧
      u.move_camera_calls = t.move_camera_calls ++ List.replicate n d ∧
      pending_moves d u = 1 ∧ Timer.move_camera d ∈ u.timers := by
  induction n generalizing t with
  | zero => exact ⟨t, rfl, hf, by simp, hp, hm⟩
  | succ n ih =>
    obtain ⟨u, hu, huf, huc, hup, hum⟩ := fire_active d t hf hp hm
    obtain ⟨w, hw, hwf, hwc, hwp, hwm⟩ := ih u huf hup hum
    refine ⟨w, ?_, hwf, ?_, hwp, hwm⟩
    · simp only [fire_times, hu, Option.some_bind, hw]
    · rw [hwc, huc, List.append_assoc, List.replicate_succ, List.singleton_append]

theorem fire_released (d : Camera_movement) (t : State)
    (hf : held_flag d t = 0) (hp : pending_moves d t = 1)
    (hm : Timer.move_camera d ∈ t.timers) :
    ∃ u, fire (Timer.move_camera d) t = some u ∧
      u.move_camera_calls = t.move_camera_calls ++ [d] ∧
      pending_moves d u = 0 ∧ fire (Timer.move_camera d) u = none := by
  have hf2 : ¬ held_flag d { t with timers := t.timers.erase (Timer.move_camera d) } ≠ 0 := by
    cases d <;> simpa using hf
  have h0 : pending_moves d
      (move_camera d { t with timers := t.timers.erase (Timer.move_camera d) }) = 0 := by
    rw [pending_moves, move_camera_timers, if_neg hf2]
    exact mem_of_pending_in d t.timers hp hm
  refine ⟨_, fire_move_camera d t hm, ?_, h0, ?_⟩
  · rw [move_camera_calls_append]
  · simp only [fire, if_neg (not_mem_of_pending_in d _ h0)]

theorem special_key_press_effect (k : Special_key) (d : Camera_movement) (s : State)
    (hk : press_direction k = some d) :
    held_flag d (special_key_press k s) = 1 ∧
    (special_key_press k s).timers = s.timers ++ [Timer.move_camera d] ∧
    (special_key_press k s).move_camera_calls = s.move_camera_calls ++ [d] := by
  cases k <;> simp only [press_direction, Option.some.injEq, reduceCtorEq] at hk <;> subst hk <;>
    simp [special_key_press, glutPostRedisplay, move_camera_timers, move_camera_calls_append,
      held_flag] <;>
    simp [move_camera, move_camera_switch, glutPostRedisplay, glutTimerFunc]

theorem special_key_release_effect (k : Special_key) (d : Camera_movement) (s : State)
    (hk : press_direction k = some d) :
    held_flag d (special_key_release k s) = 0 ∧
    (special_key_release k s).timers = s.timers ∧
    (special_key_release k s).move_camera_calls = s.move_camera_calls := by
  cases k <;> simp only [press_direction, Option.some.injEq, reduceCtorEq] at hk <;> subst hk <;>
    simp [special_key_release, glutPostRedisplay, held_flag]

/-- C6. Scheduler count.  From a state where the category of a key is idle
(its held flag is 0 and no `move_camera` timer of the category is pending),
`special_key_press` followed by `N` firings of the category's timer succeeds
(the timer is pending each time) and has called `move_camera(dir)` exactly
`N + 1` times, with exactly one timer of the category pending; after
`special_key_release` the pending timer fires once more, calling
`move_camera(dir)` once, after which no timer of the category is pending and
the timer cannot fire again. -/
theorem scheduler_count (s : State) (k : Special_key) (dir : Camera_movement) (N : ℕ)
    (hk : press_direction k = some dir)
    (_hflag : held_flag dir s = 0) (hidle : pending_moves dir s = 0) :
    ∃ s1, fire_times (Timer.move_camera dir) N (special_key_press k s) = some s1 ∧
      s1.move_camera_calls = s.move_camera_calls ++ List.replicate (N + 1) dir ∧
      pending_moves dir s1 = 1 ∧
      ∃ s2, fire (Timer.move_camera dir) (special_key_release k s1) = some s2 ∧
        s2.move_camera_calls = s1.move_camera_calls ++ [dir] ∧
        pending_moves dir s2 = 0 ∧
        fire (Timer.move_camera dir) s2 = none := by
  obtain ⟨pf, pt, pc⟩ := special_key_press_effect k dir s hk
  have hp : pending_moves dir (special_key_press k s) = 1 := by
    rw [pending_moves, pt, pending_in_append]
    simp only [pending_moves] at hidle
    rw [hidle]
  have hm : Timer.move_camera dir ∈ (special_key_press k s).timers := by
    rw [pt]; simp
  obtain ⟨s1, h1, _, h1c, h1p, h1m⟩ :=
    fire_times_active dir N (special_key_press k s) (by rw [pf]; norm_num) hp hm
  obtain ⟨rf, rt, rc⟩ := special_key_release_effect k dir s1 hk
  obtain ⟨s2, h2, h2c, h2p, h2n⟩ :=
    fire_released dir (special_key_release k s1) rf (by rw [pending_moves, rt]; exact h1p)
      (by rw [rt]; exact h1m)
  refine ⟨s1, h1, ?_, h1p, s2, h2, ?_, h2p, h2n⟩
  · rw [h1c, pc, List.append_assoc, List.replicate_succ, List.singleton_append]
  · rw [h2c, rc]

/-- C6, witness: at program start the vertical category is idle; the Up arrow
is pressed, its timer fires 3 times, the key is released and the timer fires
once more. -/
theorem scheduler_count_witness :
    press_direction Special_key.GLUT_KEY_UP = some Camera_movement.MOVE_DOWN ∧
    held_flag Camera_movement.MOVE_DOWN (start 10 1) = 0 ∧
    pending_moves Camera_movement.MOVE_DOWN (start 10 1) = 0 ∧
    ∃ s1, fire_times (Timer.move_camera Camera_movement.MOVE_DOWN) 3
        (special_key_press Special_key.GLUT_KEY_UP (start 10 1)) = some s1 ∧
      s1.move_camera_calls =
        (start 10 1).move_camera_calls ++ List.replicate (3 + 1) Camera_movement.MOVE_DOWN ∧
      pending_moves Camera_movement.MOVE_DOWN s1 = 1 ∧
      ∃ s2, fire (Timer.move_camera Camera_movement.MOVE_DOWN)
          (special_key_release Special_key.GLUT_KEY_UP s1) = some s2 ∧
        s2.move_camera_calls = s1.move_camera_calls ++ [Camera_movement.MOVE_DOWN] ∧
        pending_moves Camera_movement.MOVE_DOWN s2 = 0 ∧
        fire (Timer.move_camera Camera_movement.MOVE_DOWN) s2 = none :=
  ⟨rfl, rfl, by decide,
   scheduler_count (start 10 1) Special_key.GLUT_KEY_UP Camera_movement.MOVE_DOWN 3 rfl rfl
     (by decide)⟩

theorem adjust_rotation_speed_timers (d : Speed_variation) (s : State) :
    (adjust_rotation_speed d s).timers =
      if s.adjusting_speed ≠ 0 then s.timers ++ [Timer.adjust_rotation_speed d]
      else s.timers := by
  simp only [adjust_rotation_speed, glutPostRedisplay, glutTimerFunc]
  split_ifs <;> simp_all

theorem adjust_rotation_speed_angularSpeed (d : Speed_variation) (s t : State)
    (h : t.angularSpeed = s.angularSpeed) :
    (adjust_rotation_speed d t).angularSpeed = (adjust_rotation_speed d s).angularSpeed := by
  cases d
  · rw [adjust_increment_speed, adjust_increment_speed, h]
  · rw [adjust_decrement_speed, adjust_decrement_speed, h]

/-- C7, counterexample. At program start every held flag is 0, yet
`move_camera(MOVE_UP)` moves the camera (`eye.phi` goes from 0 to 0.025) and
`adjust_rotation_speed(SPEED_INCREMENT)` changes `angularSpeed` from 3 to 3.07. -/
theorem cleared_flag_tick_still_steps :
    held_flag Camera_movement.MOVE_UP (start 10 1) = 0 ∧
    (start 10 1).eye.phi = 0 ∧
    (move_camera Camera_movement.MOVE_UP (start 10 1)).eye.phi = 1 / 40 ∧
    (move_camera Camera_movement.MOVE_UP (start 10 1)).eye ≠ (start 10 1).eye ∧
    (start 10 1).adjusting_speed = 0 ∧
    (start 10 1).angularSpeed = 3 ∧
    (adjust_rotation_speed Speed_variation.SPEED_INCREMENT (start 10 1)).angularSpeed
      = 307 / 100 := by
  have e : (move_camera Camera_movement.MOVE_UP (start 10 1)).eye.phi = 1 / 40 := by
    rw [move_camera_up_phi]
    norm_num [start, PI, ARROW_ROT_SPEED]
  refine ⟨rfl, rfl, e, ?_, rfl, rfl, ?_⟩
  · intro h
    rw [h] at e
    norm_num [start] at e
  · rw [adjust_increment_speed]
    norm_num [start, MAX_ANGULAR_SPEED, ANGULAR_INCREMENT]

/-- C7, amended. When `move_camera(dir)` is called with the matching held flag
equal to 0 it schedules no timer (the timer queue is unchanged), but it still
applies its guarded camera step: the resulting `eye` is the one computed by the
`switch`, the same as for any call from the same camera position, whatever the
flags.  Likewise `adjust_rotation_speed(dir)` with `adjusting_speed = 0`
schedules nothing and applies the same guarded speed change as any call from
the same `angularSpeed`. -/
theorem cleared_flag_tick (s t : State) (dir : Camera_movement) (sd : Speed_variation) :
    (held_flag dir s = 0 →
      (move_camera dir s).timers = s.timers ∧
      (move_camera dir s).eye = (move_camera_switch dir s).1 ∧
      (t.eye = s.eye → (move_camera dir t).eye = (move_camera dir s).eye)) ∧
    (s.adjusting_speed = 0 →
      (adjust_rotation_speed sd s).timers = s.timers ∧
      (t.angularSpeed = s.angularSpeed →
        (adjust_rotation_speed sd t).angularSpeed =
          (adjust_rotation_speed sd s).angularSpeed)) := by
  constructor
  · intro h
    refine ⟨?_, move_camera_eye dir s, ?_⟩
    · rw [move_camera_timers, if_neg (by simp [h])]
    · intro he
      rw [move_camera_eye, move_camera_eye]
      exact (move_camera_switch_eye dir s t he).symm
  · intro h
    refine ⟨?_, adjust_rotation_speed_angularSpeed sd s t⟩
    rw [adjust_rotation_speed_timers, if_neg (by simp [h])]

/-- C7, witness: at program start the vertical flag and `adjusting_speed` are
0, and neither callback changes the timer queue. -/
theorem cleared_flag_tick_witness :
    held_flag Camera_movement.MOVE_UP (start 10 1) = 0 ∧
    (start 10 1).adjusting_speed = 0 ∧
    (move_camera Camera_movement.MOVE_UP (start 10 1)).timers = (start 10 1).timers ∧
    (adjust_rotation_speed Speed_variation.SPEED_INCREMENT (start 10 1)).timers
      = (start 10 1).timers :=
  ⟨rfl, rfl,
   ((cleared_flag_tick (start 10 1) (start 10 1) Camera_movement.MOVE_UP
      Speed_variation.SPEED_INCREMENT).1 rfl).1,
   ((cleared_flag_tick (start 10 1) (start 10 1) Camera_movement.MOVE_UP
      Speed_variation.SPEED_INCREMENT).2 rfl).1⟩

/-! ### Press and release of paired keys (C8, C9) -/

theorem fire_adjust_rotation_speed (d : Speed_variation) (t : State)
    (hm : Timer.adjust_rotation_speed d ∈ t.timers) :
    fire (Timer.adjust_rotation_speed d) t =
      some (adjust_rotation_speed d
        { t with timers := t.timers.erase (Timer.adjust_rotation_speed d) }) := by
  simp only [fire, if_pos hm]

theorem adjust_rotation_speed_adjusting_speed (d : Speed_variation) (s : State) :
    (adjust_rotation_speed d s).adjusting_speed = s.adjusting_speed := by
  simp only [adjust_rotation_speed, glutPostRedisplay, glutTimerFunc]
  split_ifs <;> rfl

/-- C8. With the Down arrow held (`moving_camera_v = 1`, one `move_camera`
timer pending), a press of the Up arrow is not ignored: it moves the camera
(`eye.phi` goes from 0.025 back to 0) and registers a second `move_camera`
timer. -/
theorem repress_not_ignored :
    (special_key_press Special_key.GLUT_KEY_DOWN (start 10 1)).moving_camera_v = 1 ∧
    (special_key_press Special_key.GLUT_KEY_DOWN (start 10 1)).eye.phi = 1 / 40 ∧
    (special_key_press Special_key.GLUT_KEY_DOWN (start 10 1)).timers =
      [Timer.updateAngle 0, Timer.move_camera Camera_movement.MOVE_UP] ∧
    (special_key_press Special_key.GLUT_KEY_UP
      (special_key_press Special_key.GLUT_KEY_DOWN (start 10 1))).eye.phi = 0 ∧
    (special_key_press Special_key.GLUT_KEY_UP
      (special_key_press Special_key.GLUT_KEY_DOWN (start 10 1))).timers =
      [Timer.updateAngle 0, Timer.move_camera Camera_movement.MOVE_UP,
        Timer.move_camera Camera_movement.MOVE_DOWN] := by
  refine ⟨?_, ?_, ?_, ?_, ?_⟩ <;>
    simp [special_key_press, move_camera, move_camera_switch, start, glutPostRedisplay,
      glutTimerFunc, PI, ARROW_ROT_SPEED] <;>
    norm_num

/-- C9. With Left and Right both held, releasing Left clears the shared flag
`moving_camera_h`; the next tick of the timer chain started by the still-held
Right key (`move_camera(MOVE_LEFT)`) is then not rescheduled.  With `+` held,
a press of `-` is ignored and the release of `-` clears `adjusting_speed`, so
the next tick of the `+` chain is not rescheduled either. -/
theorem release_stops_other_key :
    (special_key_release Special_key.GLUT_KEY_LEFT
      (special_key_press Special_key.GLUT_KEY_RIGHT
        (special_key_press Special_key.GLUT_KEY_LEFT (start 10 1)))).timers =
      [Timer.updateAngle 0, Timer.move_camera Camera_movement.MOVE_RIGHT,
        Timer.move_camera Camera_movement.MOVE_LEFT] ∧
    (special_key_release Special_key.GLUT_KEY_LEFT
      (special_key_press Special_key.GLUT_KEY_RIGHT
        (special_key_press Special_key.GLUT_KEY_LEFT (start 10 1)))).moving_camera_h = 0 ∧
    (∃ u, fire (Timer.move_camera Camera_movement.MOVE_LEFT)
        (special_key_release Special_key.GLUT_KEY_LEFT
          (special_key_press Special_key.GLUT_KEY_RIGHT
            (special_key_press Special_key.GLUT_KEY_LEFT (start 10 1)))) = some u ∧
      u.timers = [Timer.updateAngle 0, Timer.move_camera Camera_movement.MOVE_RIGHT]) ∧
    (∃ a, key '+' (start 10 1) = some a ∧ key '-' a = some a ∧
      a.timers = [Timer.updateAngle 0,
        Timer.adjust_rotation_speed Speed_variation.SPEED_INCREMENT] ∧
      (key_release '-' a).adjusting_speed = 0 ∧
      ∃ b, fire (Timer.adjust_rotation_speed Speed_variation.SPEED_INCREMENT)
          (key_release '-' a) = some b ∧
        b.timers = [Timer.updateAngle 0]) := by
  refine ⟨?_, ?_, ?_, ?_⟩
  · simp [special_key_release, special_key_press, move_camera, move_camera_switch, start,
      glutPostRedisplay, glutTimerFunc]
  · simp [special_key_release, glutPostRedisplay]
  · refine ⟨_, rfl, ?_⟩
    simp [special_key_release, special_key_press, move_camera, move_camera_switch, start,
      glutPostRedisplay, glutTimerFunc]
  · have hf : (adjust_rotation_speed Speed_variation.SPEED_INCREMENT
        { start 10 1 with adjusting_speed := 1 }).adjusting_speed = 1 := by
      rw [adjust_rotation_speed_adjusting_speed]
    have ht : (adjust_rotation_speed Speed_variation.SPEED_INCREMENT
        { start 10 1 with adjusting_speed := 1 }).timers =
        [Timer.updateAngle 0, Timer.adjust_rotation_speed Speed_variation.SPEED_INCREMENT] := by
      rw [adjust_rotation_speed_timers]
      simp [start]
    refine ⟨glutPostRedisplay (adjust_rotation_speed Speed_variation.SPEED_INCREMENT
      { start 10 1 with adjusting_speed := 1 }), ?_, ?_, ?_, ?_, ?_⟩
    · simp [key, start]
    · simp [key, glutPostRedisplay, hf]
    · simp [glutPostRedisplay, ht]
    · simp [key_release]
    · refine ⟨_, fire_adjust_rotation_speed _ _ (by simp [key_release, glutPostRedisplay, ht]),
        ?_⟩
      rw [adjust_rotation_speed_timers]
      simp [key_release, glutPostRedisplay, ht]

/-! ### Drag (C10) -/

theorem mouse_motion_theta (x y : Int) (s : State) :
    (mouse_motion x y s).eye.theta =
      if s.l_button_pressed ≠ 0 then s.eye.theta + delta_theta x s else s.eye.theta := by
  simp only [mouse_motion, glutPostRedisplay]
  split_ifs <;> rfl

/-- C10. Drag mapping.  With the left button held and a window width `W > 0`,
`mouse_motion(x, y)` changes `eye.theta` by exactly
`-((x - last_x) / W) * 2 * DRAG_SPEED`; a drag from `(100, 100)` to
`(200, 100)` in a window 1000 wide decreases `eye.theta` by `0.8`. -/
theorem drag_mapping :
    (∀ (s : State) (x y : Int), s.l_button_pressed ≠ 0 → 0 < s.window_width →
      (mouse_motion x y s).eye.theta - s.eye.theta =
        -((((x - s.last_x : Int) : ℚ)) / (s.window_width : ℚ)) * 2 * DRAG_SPEED) ∧
    (DRAG_SPEED = 4 ∧
      ∀ (s : State), s.l_button_pressed ≠ 0 → s.window_width = 1000 →
        s.last_x = 100 → s.last_y = 100 →
        (mouse_motion 200 100 s).eye.theta = s.eye.theta - 8 / 10) := by
  refine ⟨?_, rfl, ?_⟩
  · intro s x y hb _
    rw [mouse_motion_theta, if_pos hb, delta_theta]
    ring
  · intro s hb hw hx _
    rw [mouse_motion_theta, if_pos hb, delta_theta, hw, hx]
    norm_num [DRAG_SPEED]
    ring

/-- C10, witness: in the drag scenario the button is held, the width is
positive and `eye.theta` decreases by `0.8`. -/
theorem drag_mapping_witness :
    drag_scenario.l_button_pressed ≠ 0 ∧ 0 < drag_scenario.window_width ∧
    (mouse_motion 200 100 drag_scenario).eye.theta = drag_scenario.eye.theta - 8 / 10 :=
  ⟨by decide, by decide, drag_mapping.2.2 drag_scenario (by decide) rfl rfl rfl⟩

/-! ### Mouse wheel (C11, C12) -/

theorem mouse_wheel_up_rho (s : State) :
    (mouse 3 GLUT_DOWN s).eye.rho =
      if s.eye.rho < MAX_RHO then s.eye.rho + WHEEL_SCROLL_SPEED else s.eye.rho := by
  simp only [mouse, GLUT_LEFT_BUTTON, GLUT_RIGHT_BUTTON, GLUT_DOWN, GLUT_UP, glutPostRedisplay]
  norm_num
  split_ifs <;> rfl

theorem mouse_wheel_down_rho (s : State) :
    (mouse 4 GLUT_DOWN s).eye.rho =
      if s.eye.rho > WHEEL_SCROLL_SPEED then s.eye.rho - WHEEL_SCROLL_SPEED
      else s.eye.rho := by
  simp only [mouse, GLUT_LEFT_BUTTON, GLUT_RIGHT_BUTTON, GLUT_DOWN, GLUT_UP, glutPostRedisplay]
  norm_num
  split_ifs <;> rfl

theorem wheel_up_iterate_rho (c : Int) (k : ℕ) (hk : k ≤ 59) :
    ((mouse 3 GLUT_DOWN)^[k] (start (101 / 10) c)).eye.rho = 101 / 10 + 3 / 2 * (k : ℚ) := by
  induction k with
  | zero => simp [start]
  | succ n ih =>
    have hn : (n : ℚ) ≤ 58 := by exact_mod_cast Nat.le_of_succ_le_succ hk
    rw [Function.iterate_succ_apply', mouse_wheel_up_rho, ih (Nat.le_of_succ_le hk)]
    have hg : (101 / 10 + 3 / 2 * (n : ℚ)) < MAX_RHO := by
      norm_num [MAX_RHO]
      linarith
    rw [if_pos hg]
    norm_num [WHEEL_SCROLL_SPEED]
    ring

/-- C11. With the initial distance `rho = 10.1`, 59 wheel-up notches
(`mouse(3, GLUT_DOWN)`) reach `rho = 98.6`, inside `(0, MAX_RHO]`; the next
notch passes the guard `rho < MAX_RHO` and adds `WHEEL_SCROLL_SPEED`, giving
`rho = 100.1 > MAX_RHO`. -/
theorem wheel_up_leaves_range :
    ((mouse 3 GLUT_DOWN)^[59] (start (101 / 10) 1)).eye.rho = 986 / 10 ∧
    (0 < (986 / 10 : ℚ) ∧ (986 / 10 : ℚ) ≤ MAX_RHO) ∧
    (mouse 3 GLUT_DOWN ((mouse 3 GLUT_DOWN)^[59] (start (101 / 10) 1))).eye.rho = 1001 / 10 ∧
    MAX_RHO < (1001 / 10 : ℚ) := by
  refine ⟨?_, by norm_num [MAX_RHO], ?_, by norm_num [MAX_RHO]⟩
  · rw [wheel_up_iterate_rho 1 59 (by norm_num)]
    norm_num
  · rw [mouse_wheel_up_rho, wheel_up_iterate_rho 1 59 (by norm_num)]
    norm_num [MAX_RHO, WHEEL_SCROLL_SPEED]

theorem mouse_wheel_release (s : State) :
    mouse 3 GLUT_UP s = s ∧ mouse 4 GLUT_UP s = s := by
  constructor <;>
    simp [mouse, GLUT_LEFT_BUTTON, GLUT_RIGHT_BUTTON, GLUT_UP]

/-- C12. Wheel deduplication.  For the wheel buttons 3 and 4 the `GLUT_UP`
callback returns the state unchanged, so the `GLUT_DOWN` + `GLUT_UP` pair of
one notch changes `eye.rho` by exactly one `WHEEL_SCROLL_SPEED` step: added
when `rho < MAX_RHO` (button 3), subtracted when `rho > WHEEL_SCROLL_SPEED`
(button 4), and by nothing when that check fails. -/
theorem wheel_notch_single_step (s : State) :
    mouse 3 GLUT_UP s = s ∧ mouse 4 GLUT_UP s = s ∧
    (mouse 3 GLUT_UP (mouse 3 GLUT_DOWN s)).eye.rho =
      (if s.eye.rho < MAX_RHO then s.eye.rho + WHEEL_SCROLL_SPEED else s.eye.rho) ∧
    (mouse 4 GLUT_UP (mouse 4 GLUT_DOWN s)).eye.rho =
      (if s.eye.rho > WHEEL_SCROLL_SPEED then s.eye.rho - WHEEL_SCROLL_SPEED
       else s.eye.rho) := by
  refine ⟨(mouse_wheel_release s).1, (mouse_wheel_release s).2, ?_, ?_⟩
  · rw [(mouse_wheel_release _).1, mouse_wheel_up_rho]
  · rw [(mouse_wheel_release _).2, mouse_wheel_down_rho]

/-! ### Zoom out (C13) -/

theorem move_camera_away_rho (s : State) :
    (move_camera Camera_movement.MOVE_AWAY s).eye.rho =
      if s.eye.rho + ARROW_ZOOM_SPEED < MAX_RHO then s.eye.rho + ARROW_ZOOM_SPEED
      else s.eye.rho := by
  simp only [move_camera, move_camera_switch, glutPostRedisplay, glutTimerFunc]
  split_ifs <;> rfl

theorem move_away_step (s : State) (h : s.eye.rho ≤ MAX_RHO) :
    (move_camera Camera_movement.MOVE_AWAY s).eye.rho ≤ MAX_RHO ∧
    s.eye.rho ≤ (move_camera Camera_movement.MOVE_AWAY s).eye.rho := by
  rw [move_camera_away_rho]
  split_ifs with hc
  · exact ⟨hc.le, by norm_num [ARROW_ZOOM_SPEED]⟩
  · exact ⟨h, le_refl _⟩

theorem move_away_iterate (s : State) (n : ℕ) (h : s.eye.rho ≤ MAX_RHO) :
    ((move_camera Camera_movement.MOVE_AWAY)^[n] s).eye.rho ≤ MAX_RHO := by
  induction n with
  | zero => exact h
  | succ n ih =>
    rw [Function.iterate_succ_apply']
    exact (move_away_step _ ih).1

/-- C13. Zoom-out scenario.  With `eye.rho = 10`, `move_camera(MOVE_AWAY)`
yields `eye.rho = 10.2 = rho + ARROW_ZOOM_SPEED`; and from every `rho` at most
`MAX_RHO = 100`, after any number `n` of `move_camera(MOVE_AWAY)` calls `rho`
is still at most `MAX_RHO`, and the next call does not decrease it. -/
theorem zoom_out_bounded :
    (∀ s : State, s.eye.rho = 10 →
      (move_camera Camera_movement.MOVE_AWAY s).eye.rho = 102 / 10 ∧
      (move_camera Camera_movement.MOVE_AWAY s).eye.rho = s.eye.rho + ARROW_ZOOM_SPEED) ∧
    MAX_RHO = 100 ∧
    (∀ (s : State) (n : ℕ), s.eye.rho ≤ MAX_RHO →
      ((move_camera Camera_movement.MOVE_AWAY)^[n] s).eye.rho ≤ MAX_RHO ∧
      ((move_camera Camera_movement.MOVE_AWAY)^[n] s).eye.rho ≤
        ((move_camera Camera_movement.MOVE_AWAY)^[n + 1] s).eye.rho) := by
  refine ⟨?_, rfl, ?_⟩
  · intro s h
    rw [move_camera_away_rho, h]
    norm_num [ARROW_ZOOM_SPEED, MAX_RHO]
  · intro s n h
    refine ⟨move_away_iterate s n h, ?_⟩
    rw [Function.iterate_succ_apply']
    exact (move_away_step _ (move_away_iterate s n h)).2

/-- C13, witness: at program start with `rho = 10` the first call gives
`10.2`, and after 500 calls `rho` is at most `MAX_RHO`. -/
theorem zoom_out_bounded_witness :
    (start 10 1).eye.rho = 10 ∧ (start 10 1).eye.rho ≤ MAX_RHO ∧
    (move_camera Camera_movement.MOVE_AWAY (start 10 1)).eye.rho = 102 / 10 ∧
    ((move_camera Camera_movement.MOVE_AWAY)^[500] (start 10 1)).eye.rho ≤ MAX_RHO :=
  ⟨rfl, by norm_num [start, MAX_RHO], (zoom_out_bounded.1 (start 10 1) rfl).1,
   (zoom_out_bounded.2.2 (start 10 1) 500 (by norm_num [start, MAX_RHO])).1⟩

/-! ### Arrow keys (C14) -/

theorem move_camera_right_theta (s : State) :
    (move_camera Camera_movement.MOVE_RIGHT s).eye.theta =
      if s.eye.theta + ARROW_ROT_SPEED > 2 * PI then
        fmod (s.eye.theta + ARROW_ROT_SPEED) (2 * PI)
      else s.eye.theta + ARROW_ROT_SPEED := by
  simp only [move_camera, move_camera_switch, glutPostRedisplay, glutTimerFunc]
  split_ifs <;> rfl

theorem move_camera_left_theta (s : State) :
    (move_camera Camera_movement.MOVE_LEFT s).eye.theta =
      if s.eye.theta - ARROW_ROT_SPEED < 0 then
        fmod (s.eye.theta - ARROW_ROT_SPEED) (2 * PI)
      else s.eye.theta - ARROW_ROT_SPEED := by
  simp only [move_camera, move_camera_switch, glutPostRedisplay, glutTimerFunc]
  split_ifs <;> rfl

theorem special_key_press_eye (k : Special_key) (d : Camera_movement) (s t : State)
    (hk : press_direction k = some d) (ht : t.eye = s.eye) :
    (special_key_press k s).eye = (move_camera d t).eye := by
  rw [move_camera_eye]
  cases k <;> simp only [press_direction, Option.some.injEq, reduceCtorEq] at hk <;> subst hk <;>
    simp only [special_key_press, glutPostRedisplay, move_camera_eye] <;>
    exact move_camera_switch_eye _ _ _ (by simp [ht])

/-- C14. Inverted arrow mapping.  Each arrow press sets the held flag of its
category to 1 and calls `move_camera` once, with the direction opposite to the
key: Up subtracts `ARROW_ROT_SPEED` from `eye.phi` (if the result stays above
`-PI/2`, else `eye.phi` is unchanged), Down adds it (if the result stays below
`PI/2`), Left adds `ARROW_ROT_SPEED` to `eye.theta` and Right subtracts it,
the sum being wrapped by `fmod` when it is above `2*PI`, respectively below 0. -/
theorem inverted_arrow_mapping (s : State) :
    ((special_key_press Special_key.GLUT_KEY_UP s).moving_camera_v = 1 ∧
      (special_key_press Special_key.GLUT_KEY_UP s).move_camera_calls =
        s.move_camera_calls ++ [Camera_movement.MOVE_DOWN] ∧
      (special_key_press Special_key.GLUT_KEY_UP s).eye.phi =
        (if s.eye.phi - ARROW_ROT_SPEED > -PI / 2 then s.eye.phi - ARROW_ROT_SPEED
         else s.eye.phi)) ∧
    ((special_key_press Special_key.GLUT_KEY_DOWN s).moving_camera_v = 1 ∧
      (special_key_press Special_key.GLUT_KEY_DOWN s).move_camera_calls =
        s.move_camera_calls ++ [Camera_movement.MOVE_UP] ∧
      (special_key_press Special_key.GLUT_KEY_DOWN s).eye.phi =
        (if s.eye.phi + ARROW_ROT_SPEED < PI / 2 then s.eye.phi + ARROW_ROT_SPEED
         else s.eye.phi)) ∧
    ((special_key_press Special_key.GLUT_KEY_LEFT s).moving_camera_h = 1 ∧
      (special_key_press Special_key.GLUT_KEY_LEFT s).move_camera_calls =
        s.move_camera_calls ++ [Camera_movement.MOVE_RIGHT] ∧
      (special_key_press Special_key.GLUT_KEY_LEFT s).eye.theta =
        (if s.eye.theta + ARROW_ROT_SPEED > 2 * PI then
           fmod (s.eye.theta + ARROW_ROT_SPEED) (2 * PI)
         else s.eye.theta + ARROW_ROT_SPEED)) ∧
    ((special_key_press Special_key.GLUT_KEY_RIGHT s).moving_camera_h = 1 ∧
      (special_key_press Special_key.GLUT_KEY_RIGHT s).move_camera_calls =
        s.move_camera_calls ++ [Camera_movement.MOVE_LEFT] ∧
      (special_key_press Special_key.GLUT_KEY_RIGHT s).eye.theta =
        (if s.eye.theta - ARROW_ROT_SPEED < 0 then
           fmod (s.eye.theta - ARROW_ROT_SPEED) (2 * PI)
         else s.eye.theta - ARROW_ROT_SPEED)) := by
  refine ⟨⟨?_, ?_, ?_⟩, ⟨?_, ?_, ?_⟩, ⟨?_, ?_, ?_⟩, ⟨?_, ?_, ?_⟩⟩
  · exact (special_key_press_effect Special_key.GLUT_KEY_UP _ s rfl).1
  · exact (special_key_press_effect Special_key.GLUT_KEY_UP _ s rfl).2.2
  · rw [special_key_press_eye Special_key.GLUT_KEY_UP _ s s rfl rfl, move_camera_down_phi]
  · exact (special_key_press_effect Special_key.GLUT_KEY_DOWN _ s rfl).1
  · exact (special_key_press_effect Special_key.GLUT_KEY_DOWN _ s rfl).2.2
  · rw [special_key_press_eye Special_key.GLUT_KEY_DOWN _ s s rfl rfl, move_camera_up_phi]
  · exact (special_key_press_effect Special_key.GLUT_KEY_LEFT _ s rfl).1
  · exact (special_key_press_effect Special_key.GLUT_KEY_LEFT _ s rfl).2.2
  · rw [special_key_press_eye Special_key.GLUT_KEY_LEFT _ s s rfl rfl, move_camera_right_theta]
  · exact (special_key_press_effect Special_key.GLUT_KEY_RIGHT _ s rfl).1
  · exact (special_key_press_effect Special_key.GLUT_KEY_RIGHT _ s rfl).2.2
  · rw [special_key_press_eye Special_key.GLUT_KEY_RIGHT _ s s rfl rfl, move_camera_left_theta]

/-! ### Auto-rotation toggle (C15) -/

theorem updateAngle_timers (v : Int) (s : State) :
    (updateAngle v s).timers =
      if s.rotate ≠ 0 then s.timers ++ [Timer.updateAngle 0] else s.timers := by
  simp only [updateAngle, glutPostRedisplay, glutTimerFunc]
  split_ifs <;> simp_all

theorem updateAngle_rotate (v : Int) (s : State) :
    (updateAngle v s).rotate = s.rotate := by
  simp only [updateAngle, glutPostRedisplay, glutTimerFunc]
  split_ifs <;> rfl

theorem key_space (s : State) :
    key ' ' s = some (glutPostRedisplay
      { (if s.rotate = 0 then glutTimerFunc TIME_GAP (Timer.updateAngle 0) s else s) with
        rotate := if s.rotate = 0 then 1 else 0 }) := by
  have h1 : ¬ ((' ' : Char) = Char.ofNat 27 ∨ (' ' : Char) = 'q') := by decide
  have h2 : ¬ ((' ' : Char) = '+') := by decide
  have h3 : ¬ ((' ' : Char) = '-') := by decide
  simp only [key, if_neg h1, if_neg h2, if_neg h3, if_true]
  split_ifs <;> simp_all [glutTimerFunc]

/-- C15. Auto-rotation toggle.  `key(' ')` returns (it does not exit), sets
`rotate` to 1 if it was 0 and to 0 otherwise, and registers exactly one
`updateAngle` timer if `rotate` was 0 and none otherwise; an `updateAngle`
tick leaves `rotate` as it is and registers one `updateAngle` timer if
`rotate` is nonzero and none otherwise. -/
theorem rotation_toggle (s : State) (v : Int) :
    (∃ t, key ' ' s = some t ∧
      t.rotate = (if s.rotate = 0 then 1 else 0) ∧
      t.timers = (if s.rotate = 0 then s.timers ++ [Timer.updateAngle 0] else s.timers)) ∧
    (updateAngle v s).rotate = s.rotate ∧
    (updateAngle v s).timers =
      (if s.rotate ≠ 0 then s.timers ++ [Timer.updateAngle 0] else s.timers) := by
  refine ⟨⟨_, key_space s, ?_, ?_⟩, updateAngle_rotate v s, updateAngle_timers v s⟩
  · simp only [glutPostRedisplay]
  · simp only [glutPostRedisplay, glutTimerFunc]
    split_ifs <;> rfl

/-! ### Display mode (C17, C18) -/

theorem updateAngle_display_mode (v : Int) (s : State) :
    display_mode (updateAngle v s) = display_mode s := by
  simp only [updateAngle, glutPostRedisplay, glutTimerFunc, display_mode]
  split_ifs <;> rfl

theorem adjust_rotation_speed_display_mode (d : Speed_variation) (s : State) :
    display_mode (adjust_rotation_speed d s) = display_mode s := by
  simp only [adjust_rotation_speed, glutPostRedisplay, glutTimerFunc, display_mode]
  split_ifs <;> rfl

theorem move_camera_display_mode (d : Camera_movement) (s : State) :
    display_mode (move_camera d s) = display_mode s := by
  simp only [move_camera, glutPostRedisplay, glutTimerFunc, display_mode]
  split_ifs <;> rfl

theorem key_display_mode (c : Char) (s t : State) (h : key c s = some t) :
    display_mode t = display_mode s := by
  simp only [key] at h
  split_ifs at h <;> simp only [Option.some.injEq, reduceCtorEq] at h <;> subst h
  all_goals
    first
    | rfl
    | exact adjust_rotation_speed_display_mode _ _

theorem key_release_display_mode (c : Char) (s : State) :
    display_mode (key_release c s) = display_mode s := by
  simp only [key_release, display_mode]
  split_ifs <;> rfl

theorem special_key_press_display_mode (k : Special_key) (s : State) :
    display_mode (special_key_press k s) = display_mode s := by
  cases k <;> simp only [special_key_press] <;>
    first
    | exact move_camera_display_mode _ _
    | rfl

theorem special_key_release_display_mode (k : Special_key) (s : State) :
    display_mode (special_key_release k s) = display_mode s := by
  cases k <;> rfl

theorem mouse_display_mode (button state : Int) (s : State) :
    display_mode (mouse button state s) = display_mode s := by
  simp only [mouse, glutPostRedisplay, display_mode]
  split_ifs <;> rfl

theorem mouse_motion_display_mode (x y : Int) (s : State) :
    display_mode (mouse_motion x y s) = display_mode s := by
  simp only [mouse_motion, glutPostRedisplay, display_mode]
  split_ifs <;> rfl

theorem fire_display_mode (t : Timer) (s u : State) (h : fire t s = some u) :
    display_mode u = display_mode s := by
  simp only [fire] at h
  split_ifs at h
  cases t <;> simp only [Option.some.injEq] at h <;> subst h
  · exact updateAngle_display_mode _ _
  · exact adjust_rotation_speed_display_mode _ _
  · exact move_camera_display_mode _ _

theorem dispatch_display_mode (e : Event) (s t : State) (h : dispatch e s = some t)
    (hm : ∀ v, e ≠ Event.menu v) (ha : ∀ v, e ≠ Event.axis_submenu v) :
    display_mode t = display_mode s := by
  cases e with
  | key c => exact key_display_mode c s t h
  | key_release c =>
    simp only [dispatch, Option.some.injEq] at h; subst h
    exact key_release_display_mode c s
  | special_key_press k =>
    simp only [dispatch, Option.some.injEq] at h; subst h
    exact special_key_press_display_mode k s
  | special_key_release k =>
    simp only [dispatch, Option.some.injEq] at h; subst h
    exact special_key_release_display_mode k s
  | mouse b st =>
    simp only [dispatch, Option.some.injEq] at h; subst h
    exact mouse_display_mode b st s
  | passive_mouse_motion x y =>
    simp only [dispatch, Option.some.injEq] at h; subst h
    rfl
  | mouse_motion x y =>
    simp only [dispatch, Option.some.injEq] at h; subst h
    exact mouse_motion_display_mode x y s
  | menu v => exact absurd rfl (hm v)
  | axis_submenu v => exact absurd rfl (ha v)
  | timer t0 => exact fire_display_mode t0 s t h
  | window w h0 =>
    simp only [dispatch, Option.some.injEq] at h; subst h
    rfl

theorem axisSubmenuCallback_frame (v : Int) (s : State) :
    (axisSubmenuCallback v s).isColored = s.isColored ∧
    (axisSubmenuCallback v s).displayColor = s.displayColor ∧
    (axisSubmenuCallback v s).light_rotation = s.light_rotation := by
  simp only [axisSubmenuCallback]
  split_ifs <;> exact ⟨rfl, rfl, rfl⟩

theorem axisSubmenuCallback_axis (v : Int) (s : State)
    (h : (s.rotation_axis.x = 0 ∨ s.rotation_axis.x = 1) ∧
      (s.rotation_axis.y = 0 ∨ s.rotation_axis.y = 1) ∧
      (s.rotation_axis.z = 0 ∨ s.rotation_axis.z = 1)) :
    ((axisSubmenuCallback v s).rotation_axis.x = 0 ∨
      (axisSubmenuCallback v s).rotation_axis.x = 1) ∧
    ((axisSubmenuCallback v s).rotation_axis.y = 0 ∨
      (axisSubmenuCallback v s).rotation_axis.y = 1) ∧
    ((axisSubmenuCallback v s).rotation_axis.z = 0 ∨
      (axisSubmenuCallback v s).rotation_axis.z = 1) := by
  simp only [axisSubmenuCallback]
  split_ifs <;> simp_all

theorem menuCallback_frame (v : Int) (s t : State) (h : menuCallback v s = some t) :
    t.isColored = s.isColored ∧ t.rotation_axis = s.rotation_axis ∧
    (v ≠ 4 → t.displayColor = s.displayColor) ∧
    ((s.displayColor = 0 ∨ s.displayColor = 1) → (t.displayColor = 0 ∨ t.displayColor = 1)) ∧
    ((s.light_rotation = 0 ∨ s.light_rotation = 1) →
      (t.light_rotation = 0 ∨ t.light_rotation = 1)) := by
  simp only [menuCallback] at h
  split_ifs at h <;> simp only [Option.some.injEq, reduceCtorEq] at h <;> subst h <;>
    refine ⟨rfl, rfl, ?_, ?_, ?_⟩ <;> simp_all

/-- In every state reachable from program start, `displayColor`,
`light_rotation` and the three components of `rotation_axis` are 0 or 1, and
`isColored` has its initial value. -/
theorem reachable_flags (rho : ℚ) (c : Int) (s : State) (h : Reachable (start rho c) s) :
    s.isColored = c ∧
    (s.displayColor = 0 ∨ s.displayColor = 1) ∧
    (s.light_rotation = 0 ∨ s.light_rotation = 1) ∧
    (s.rotation_axis.x = 0 ∨ s.rotation_axis.x = 1) ∧
    (s.rotation_axis.y = 0 ∨ s.rotation_axis.y = 1) ∧
    (s.rotation_axis.z = 0 ∨ s.rotation_axis.z = 1) := by
  induction h with
  | start => simp [start]
  | step e s t _ hd ih =>
    obtain ⟨i1, i2, i3, i4, i5, i6⟩ := ih
    by_cases hm : ∃ v, e = Event.menu v
    · obtain ⟨v, rfl⟩ := hm
      simp only [dispatch] at hd
      split_ifs at hd
      obtain ⟨f1, f2, _, f4, f5⟩ := menuCallback_frame v s t hd
      rw [f1, f2]
      exact ⟨i1, f4 i2, f5 i3, i4, i5, i6⟩
    · by_cases ha : ∃ v, e = Event.axis_submenu v
      · obtain ⟨v, rfl⟩ := ha
        simp only [dispatch] at hd
        split_ifs at hd
        simp only [Option.some.injEq] at hd
        subst hd
        obtain ⟨f1, f2, f3⟩ := axisSubmenuCallback_frame v s
        rw [f1, f2, f3]
        exact ⟨i1, i2, i3, axisSubmenuCallback_axis v s ⟨i4, i5, i6⟩⟩
      · have hdm := dispatch_display_mode e s t hd (fun v hv => hm ⟨v, hv⟩)
          (fun v hv => ha ⟨v, hv⟩)
        simp only [display_mode, Prod.mk.injEq] at hdm
        obtain ⟨e1, e2, e3, _, e5⟩ := hdm
        rw [e1, e2, e3, e5]
        exact ⟨i1, i2, i3, i4, i5, i6⟩

/-- Without per-vertex color, `displayColor` keeps its initial value 1 in
every reachable state. -/
theorem reachable_uncolored (rho : ℚ) (s : State) (h : Reachable (start rho 0) s) :
    s.isColored = 0 ∧ s.displayColor = 1 := by
  induction h with
  | start => simp [start]
  | step e s t _ hd ih =>
    obtain ⟨i1, i2⟩ := ih
    by_cases hm : ∃ v, e = Event.menu v
    · obtain ⟨v, rfl⟩ := hm
      simp only [dispatch] at hd
      split_ifs at hd with hv
      have hv4 : v ≠ 4 := by
        rintro rfl
        simp [createGLUTMenu, i1] at hv
      obtain ⟨f1, _, f3, _, _⟩ := menuCallback_frame v s t hd
      rw [f1, f3 hv4]
      exact ⟨i1, i2⟩
    · by_cases ha : ∃ v, e = Event.axis_submenu v
      · obtain ⟨v, rfl⟩ := ha
        simp only [dispatch] at hd
        split_ifs at hd
        simp only [Option.some.injEq] at hd
        subst hd
        obtain ⟨f1, f2, _⟩ := axisSubmenuCallback_frame v s
        rw [f1, f2]
        exact ⟨i1, i2⟩
      · have hdm := dispatch_display_mode e s t hd (fun v hv => hm ⟨v, hv⟩)
          (fun v hv => ha ⟨v, hv⟩)
        simp only [display_mode, Prod.mk.injEq] at hdm
        obtain ⟨e1, e2, _⟩ := hdm
        rw [e1, e2]
        exact ⟨i1, i2⟩

/-- C17, counterexample. With no per-vertex color (`isColored = 0`) the state
at program start, which is reachable, has `displayColor = 1`: the variable
does not report false. -/
theorem displayColor_true_when_uncolored :
    Reachable (start 10 0) (start 10 0) ∧ (start 10 0).isColored = 0 ∧
    (start 10 0).displayColor = 1 ∧ (start 10 0).displayColor ≠ 0 :=
  ⟨Reachable.start, rfl, rfl, by decide⟩

/-- C17, amended. When the loaded mesh has no per-vertex color
(`isColored = 0` at program start), in every reachable state, whatever menu
selections are made, the condition `isColored && displayColor` under which
`display` uses the color array is false and menu entry 4 is not among the
entries added by `createGLUTMenu`; the variable `displayColor` itself keeps
its initial value 1. -/
theorem color_off_when_uncolored (rho : ℚ) (s : State) (h : Reachable (start rho 0) s) :
    s.isColored = 0 ∧ display_uses_color s = false ∧
    (4 : Int) ∉ (createGLUTMenu s).map Prod.snd ∧
    (∀ l : String, (l, (4 : Int)) ∉ createGLUTMenu s) ∧
    s.displayColor = 1 := by
  obtain ⟨h1, h2⟩ := reachable_uncolored rho s h
  refine ⟨h1, ?_, ?_, ?_, h2⟩
  · simp [display_uses_color, h1]
  · simp [createGLUTMenu, h1]
  · intro l
    simp [createGLUTMenu, h1]

/-- C17, witness: the state after choosing menu entry 5 at program start is
reachable, and there `display` does not use the color array. -/
theorem color_off_when_uncolored_witness :
    Reachable (start 10 0) { start 10 0 with light_rotation := 1 } ∧
    display_uses_color { start 10 0 with light_rotation := 1 } = false :=
  ⟨Reachable.step (Event.menu 5) (start 10 0) _ Reachable.start (by decide),
   (color_off_when_uncolored 10 { start 10 0 with light_rotation := 1 }
     (Reachable.step (Event.menu 5) (start 10 0) _ Reachable.start (by decide))).2.1⟩

/-- C18. Toggle involution.  In every state reachable from program start,
`menuCallback(4)`, `menuCallback(5)` and `menuCallback(6)` invoked twice, and
`axisSubmenuCallback(4)`, `(5)` and `(6)` invoked twice, return exactly the
state they started from: the toggled variable is restored and nothing else
has changed. -/
theorem toggle_involution (rho : ℚ) (c : Int) (s : State)
    (h : Reachable (start rho c) s) :
    (menuCallback 4 s).bind (menuCallback 4) = some s ∧
    (menuCallback 5 s).bind (menuCallback 5) = some s ∧
    (menuCallback 6 s).bind (menuCallback 6) = some s ∧
    axisSubmenuCallback 4 (axisSubmenuCallback 4 s) = s ∧
    axisSubmenuCallback 5 (axisSubmenuCallback 5 s) = s ∧
    axisSubmenuCallback 6 (axisSubmenuCallback 6 s) = s := by
  obtain ⟨_, h2, h3, h4, h5, h6⟩ := reachable_flags rho c s h
  obtain ⟨eye, mh, mv, mr, asp, ang, spd, rot, lr, ⟨ax, ay, az⟩, rs, dc, ic, lb, lx, ly, ww, wh,
    tm, rd, mc⟩ := s
  simp only at h2 h3 h4 h5 h6
  refine ⟨?_, ?_, ?_, ?_, ?_, ?_⟩
  · rcases h2 with rfl | rfl <;> simp [menuCallback]
  · rcases h3 with rfl | rfl <;> simp [menuCallback]
  · simp [menuCallback]
  · rcases h4 with rfl | rfl <;> simp [axisSubmenuCallback]
  · rcases h5 with rfl | rfl <;> simp [axisSubmenuCallback]
  · rcases h6 with rfl | rfl <;> simp [axisSubmenuCallback]

/-- C18, witness: the program start state is reachable, and there a double
`menuCallback(4)` and a double `axisSubmenuCallback(5)` restore the state. -/
theorem toggle_involution_witness :
    Reachable (start 10 1) (start 10 1) ∧
    (menuCallback 4 (start 10 1)).bind (menuCallback 4) = some (start 10 1) ∧
    axisSubmenuCallback 5 (axisSubmenuCallback 5 (start 10 1)) = start 10 1 :=
  ⟨Reachable.start, (toggle_involution 10 1 (start 10 1) Reachable.start).1,
   (toggle_involution 10 1 (start 10 1) Reachable.start).2.2.2.2.1⟩

/-! ### Color normalization (C16) -/

theorem scale_colors_eq_map (n : ℕ) (cs : List ℚ) (h : cs.length ≤ n) :
    scale_colors n cs = cs.map (fun c => c / 255) := by
  induction cs generalizing n with
  | nil => cases n <;> rfl
  | cons c cs ih =>
    cases n with
    | zero => simp at h
    | succ n =>
      simp only [scale_colors, List.map_cons]
      rw [ih n (by simpa using h)]

theorem init_model_color (sqrt : ℚ → ℚ) (m : Model) :
    (init_model sqrt m).color =
      if m.isColored ≠ 0 then scale_colors (m.n_vertex * 3).toNat m.color else m.color := by
  simp only [init_model]
  split_ifs <;> rfl

theorem init_model_counts (sqrt : ℚ → ℚ) (m : Model) :
    (init_model sqrt m).isColored = m.isColored ∧ (init_model sqrt m).n_vertex = m.n_vertex := by
  simp only [init_model]
  split_ifs <;> exact ⟨rfl, rfl⟩

/-- C16, counterexample. For the colored one-vertex mesh with raw color
`(255, 0, 51)`, whose components lie in `[0, 255]`, one run of `init_model`
gives the color `(1, 0, 1/5)` and a second run gives `(1/255, 0, 1/1275)`:
the second run changes the color components. -/
theorem init_model_twice_rescales :
    red_model.isColored = 1 ∧
    (∀ c ∈ red_model.color, 0 ≤ c ∧ c ≤ 255) ∧
    (init_model Rat.sqrt red_model).color = [1, 0, 1 / 5] ∧
    (init_model Rat.sqrt (init_model Rat.sqrt red_model)).color = [1 / 255, 0, 1 / 1275] ∧
    (init_model Rat.sqrt (init_model Rat.sqrt red_model)).color ≠
      (init_model Rat.sqrt red_model).color := by
  have e1 : (init_model Rat.sqrt red_model).color = [1, 0, 1 / 5] := by
    rw [init_model_color]
    norm_num [red_model, initial_model, scale_colors]
  have e2 : (init_model Rat.sqrt (init_model Rat.sqrt red_model)).color
      = [1 / 255, 0, 1 / 1275] := by
    rw [init_model_color, (init_model_counts _ _).1, (init_model_counts _ _).2, e1]
    norm_num [red_model, initial_model, scale_colors]
  refine ⟨rfl, ?_, e1, e2, ?_⟩
  · norm_num [red_model, initial_model]
  · rw [e1, e2]
    norm_num

/-- C16, amended. For a colored mesh whose color buffer has `n_vertex * 3`
cells with raw values in `[0, 255]`, `init_model` divides every color
component by 255, which yields components in `[0, 1]`; `init_model` has no
guard against repetition: a second run divides every color component by 255
again. -/
theorem color_normalization (sqrt : ℚ → ℚ) (m : Model)
    (hc : m.isColored ≠ 0) (hl : m.color.length = (m.n_vertex * 3).toNat)
    (hr : ∀ c ∈ m.color, 0 ≤ c ∧ c ≤ 255) :
    (init_model sqrt m).color = m.color.map (fun c => c / 255) ∧
    (∀ c ∈ (init_model sqrt m).color, 0 ≤ c ∧ c ≤ 1) ∧
    (init_model sqrt (init_model sqrt m)).color =
      (init_model sqrt m).color.map (fun c => c / 255) := by
  have e1 : (init_model sqrt m).color = m.color.map (fun c => c / 255) := by
    rw [init_model_color, if_pos hc, scale_colors_eq_map _ _ hl.le]
  refine ⟨e1, ?_, ?_⟩
  · intro c hmem
    rw [e1, List.mem_map] at hmem
    obtain ⟨r, hrm, rfl⟩ := hmem
    obtain ⟨h0, h1⟩ := hr r hrm
    constructor
    · positivity
    · rw [div_le_one (by norm_num)]
      exact h1
  · rw [init_model_color (m := init_model sqrt m), (init_model_counts _ _).1,
      (init_model_counts _ _).2, if_pos hc, scale_colors_eq_map]
    rw [e1, List.length_map, hl]

/-- C16, witness: the one-vertex mesh of raw color `(255, 0, 51)` satisfies
the hypotheses; its color after `init_model` is the raw color divided by 255. -/
theorem color_normalization_witness :
    red_model.isColored ≠ 0 ∧
    red_model.color.length = (red_model.n_vertex * 3).toNat ∧
    (∀ c ∈ red_model.color, 0 ≤ c ∧ c ≤ 255) ∧
    (init_model Rat.sqrt red_model).color = red_model.color.map (fun c => c / 255) :=
  ⟨by decide, by decide, by norm_num [red_model, initial_model],
   (color_normalization Rat.sqrt red_model (by decide) (by decide)
     (by norm_num [red_model, initial_model])).1⟩

/-! ### Initial camera distance (C20) -/

theorem init_model_rho (sqrt : ℚ → ℚ) (m : Model) :
    (init_model sqrt m).eye.rho =
      if (init_model sqrt m).bb_radius < MIN_BB_RADIUS then
        INITIAL_DISTANCE_RATIO * (init_model sqrt m).bb_radius *
          (MIN_BB_RADIUS / (init_model sqrt m).bb_radius)
      else INITIAL_DISTANCE_RATIO * (init_model sqrt m).bb_radius := by
  simp only [init_model]
  split_ifs <;> simp_all

theorem init_model_bb_radius (sqrt : ℚ → ℚ) (m : Model) :
    (init_model sqrt m).bb_radius = 1 / 4 * sqrt (
        (m.max_coord 0 - m.min_coord 0) * (m.max_coord 0 - m.min_coord 0)
      + (m.max_coord 1 - m.min_coord 1) * (m.max_coord 1 - m.min_coord 1)
      + (m.max_coord 2 - m.min_coord 2) * (m.max_coord 2 - m.min_coord 2)) := by
  simp only [init_model]
  split_ifs <;> rfl

theorem wide_model_bb_radius : (init_model Rat.sqrt wide_model).bb_radius = 25 := by
  have hs : Rat.sqrt (100 * 100) = 100 := by
    rw [Rat.sqrt_eq]
    norm_num
  have h2 : ((2 : Fin 3) = 0) = False := by decide
  rw [init_model_bb_radius]
  simp only [wide_model, initial_model, h2, if_true, if_false, one_ne_zero, sub_zero, mul_zero,
    add_zero]
  rw [hs]
  norm_num

/-- C20. For the mesh whose bounding box is 100 wide and flat (`sqrt` returns
100 for the radicand 10000), `init_model` computes `bb_radius = 25 > 0` and
the initial distance `eye.rho = 125`, which is above `MAX_RHO`: `init_model`
assigns `INITIAL_DISTANCE_RATIO * bb_radius` without comparing it with
`MAX_RHO`. -/
theorem init_model_rho_above_max :
    (init_model Rat.sqrt wide_model).bb_radius = 25 ∧
    0 < (init_model Rat.sqrt wide_model).bb_radius ∧
    (init_model Rat.sqrt wide_model).eye.rho = 125 ∧
    ¬ ((init_model Rat.sqrt wide_model).eye.rho ≤ MAX_RHO) := by
  have e1 := wide_model_bb_radius
  have e2 : (init_model Rat.sqrt wide_model).eye.rho = 125 := by
    rw [init_model_rho, e1]
    norm_num [MIN_BB_RADIUS, INITIAL_DISTANCE_RATIO]
  refine ⟨e1, by rw [e1]; norm_num, e2, ?_⟩
  rw [e2]
  norm_num [MAX_RHO]

/-- The value that `init_model` assigns to `eye.rho`, for a bounding-box
radius `bb_radius > 0`: it is positive, it is
`INITIAL_DISTANCE_RATIO * bb_radius` when `bb_radius ≥ MIN_BB_RADIUS` and
`INITIAL_DISTANCE_RATIO * MIN_BB_RADIUS = 10` when
`0 < bb_radius < MIN_BB_RADIUS`; as no bound is applied, it is at most
`MAX_RHO` only for `bb_radius ≤ 20`. -/
theorem initial_distance (sqrt : ℚ → ℚ) (m : Model)
    (h : 0 < (init_model sqrt m).bb_radius) :
    0 < (init_model sqrt m).eye.rho ∧
    (MIN_BB_RADIUS ≤ (init_model sqrt m).bb_radius →
      (init_model sqrt m).eye.rho = INITIAL_DISTANCE_RATIO * (init_model sqrt m).bb_radius) ∧
    ((init_model sqrt m).bb_radius < MIN_BB_RADIUS →
      (init_model sqrt m).eye.rho = INITIAL_DISTANCE_RATIO * MIN_BB_RADIUS ∧
      (init_model sqrt m).eye.rho = 10) ∧
    ((init_model sqrt m).eye.rho ≤ MAX_RHO ↔ (init_model sqrt m).bb_radius ≤ 20) := by
  have hne : (init_model sqrt m).bb_radius ≠ 0 := h.ne.symm
  have small : (init_model sqrt m).bb_radius < MIN_BB_RADIUS →
      (init_model sqrt m).eye.rho = INITIAL_DISTANCE_RATIO * MIN_BB_RADIUS := by
    intro hlt
    rw [init_model_rho, if_pos hlt]
    field_simp
    ring
  have big : MIN_BB_RADIUS ≤ (init_model sqrt m).bb_radius →
      (init_model sqrt m).eye.rho = INITIAL_DISTANCE_RATIO * (init_model sqrt m).bb_radius := by
    intro hge
    rw [init_model_rho, if_neg (not_lt.mpr hge)]
  refine ⟨?_, big, fun hlt => ⟨small hlt, ?_⟩, ?_⟩
  · rcases lt_or_le (init_model sqrt m).bb_radius MIN_BB_RADIUS with hlt | hge
    · rw [small hlt]
      norm_num [ INITIAL_DISTANCE_RATIO, MIN_BB_RADIUS]
    · rw [big hge]
      have : (0 : ℚ) < INITIAL_DISTANCE_RATIO := by norm_num [ INITIAL_DISTANCE_RATIO]
      positivity
  · rw [small hlt]
    norm_num [ INITIAL_DISTANCE_RATIO, MIN_BB_RADIUS]
  · rcases lt_or_le (init_model sqrt m).bb_radius MIN_BB_RADIUS with hlt | hge
    · rw [small hlt]
      have h2 : (init_model sqrt m).bb_radius < 2 := by simpa [MIN_BB_RADIUS] using hlt
      constructor
      · intro _
        linarith
      · intro _
        norm_num [ INITIAL_DISTANCE_RATIO, MIN_BB_RADIUS, MAX_RHO]
    · rw [big hge]
      norm_num [ INITIAL_DISTANCE_RATIO, MAX_RHO]
      constructor <;> intro hh <;> linarith

/-- An instance of `initial_distance`: the wide mesh has `bb_radius = 25 > 0`,
and its initial distance is positive. -/
theorem initial_distance_witness :
    0 < (init_model Rat.sqrt wide_model).bb_radius ∧
    0 < (init_model Rat.sqrt wide_model).eye.rho :=
  ⟨by rw [wide_model_bb_radius]; norm_num,
   (initial_distance Rat.sqrt wide_model (by rw [wide_model_bb_radius]; norm_num)).1⟩

/-! ### Failed loads (C19) -/

theorem scan_header_vertex_only (m : Model) :
    scan_header vertex_only_file.tokens.length vertex_only_file.tokens m =
      Header_result.done []
        { m with n_vertex := 5, normals := List.replicate 15 0, vertexp := List.replicate 15 0 } := by
  simp [vertex_only_file, scan_header, scan_d, malloc]

theorem scan_header_face_only (m : Model) :
    scan_header face_only_file.tokens.length face_only_file.tokens m =
      Header_result.done [Token.int 3, Token.int 0, Token.int 1, Token.int 2]
        { m with n_faces := 1, indices := List.replicate 3 0 } := by
  simp [face_only_file, scan_header, scan_d, malloc]

theorem scan_d_length (ts : List Token) (old : Int) :
    (scan_d ts old).2.length ≤ ts.length := by
  unfold scan_d
  split <;> simp

/-- The bound on the number of iterations never ends the header loop: any two
bounds that are at least the number of tokens give the same result. -/
theorem scan_header_fuel (f1 : ℕ) :
    ∀ (f2 : ℕ) (ts : List Token) (m : Model), ts.length ≤ f1 → ts.length ≤ f2 →
      scan_header f1 ts m = scan_header f2 ts m := by
  induction f1 with
  | zero =>
    intro f2 ts m h1 _
    have : ts = [] := List.length_eq_zero.mp (Nat.le_zero.mp h1)
    subst this
    cases f2 <;> rfl
  | succ f1 ih =>
    intro f2 ts m h1 h2
    cases ts with
    | nil => cases f2 <;> rfl
    | cons tmp rest =>
      cases f2 with
      | zero => simp at h2
      | succ g =>
        have r1 : rest.length ≤ f1 := by simpa using h1
        have r2 : rest.length ≤ g := by simpa using h2
        simp only [scan_header]
        split
        · rfl
        · split
          · rfl
          · split
            · rfl
            · split
              · rfl
              · rename_i _ m2 ts1 heq2 _ m3 heq3 _ m4 ts4 heq4 _
                have l1 : ts1.length ≤ rest.length := by
                  split_ifs at heq2
                  · simp only [Option.bind_eq_some, Option.map_eq_some', Prod.mk.injEq] at heq2
                    obtain ⟨_, _, _, _, _, rfl⟩ := heq2
                    exact scan_d_length _ _
                  · simp only [Option.some.injEq, Prod.mk.injEq] at heq2
                    obtain ⟨_, rfl⟩ := heq2
                    exact le_refl _
                have l2 : ts4.length ≤ ts1.length := by
                  split_ifs at heq4
                  · simp only [Option.map_eq_some', Prod.mk.injEq] at heq4
                    obtain ⟨_, _, _, rfl⟩ := heq4
                    exact scan_d_length _ _
                  · simp only [Option.some.injEq, Prod.mk.injEq] at heq4
                    obtain ⟨_, rfl⟩ := heq4
                    exact le_refl _
                exact ih g ts4 m4 (by omega) (by omega)

set_option maxRecDepth 4000 in
theorem parse_vertex_only_file :
    parse_file (some vertex_only_file) initial_model =
      Parse_result.returned (-1) after_vertex_only := by
  simp only [parse_file, scan_header_vertex_only]
  simp [vertex_only_file, initial_model, after_vertex_only]

set_option maxRecDepth 4000 in
theorem parse_face_only_file_after :
    ∃ mB, parse_file (some face_only_file) after_vertex_only = Parse_result.returned 0 mB := by
  simp only [parse_file, scan_header_face_only]
  simp [face_only_file, after_vertex_only]

set_option maxRecDepth 4000 in
theorem parse_face_only_file_first :
    ∃ m0, parse_file (some face_only_file) initial_model = Parse_result.returned (-1) m0 := by
  simp only [parse_file, scan_header_face_only]
  simp [face_only_file, initial_model]

/-- C19. From the initial globals, `parse_file` on a file whose header
declares 5 vertices and no faces returns `-1`, yet it leaves `n_vertex = 5`
(it was 0), `isColored = 0` (it was 1) and two freshly allocated buffers of
15 cells.  The failed attempt changes the result of the next call: a file
whose header declares one face and no vertices is rejected (`-1`) from the
initial globals, but accepted (`0`) after the failed attempt. -/
theorem failed_parse_leaves_changes :
    (∃ mA, parse_file (some vertex_only_file) initial_model = Parse_result.returned (-1) mA ∧
      mA.n_vertex = 5 ∧ initial_model.n_vertex = 0 ∧
      mA.isColored = 0 ∧ initial_model.isColored = 1 ∧
      mA.vertexp.length = 15 ∧ initial_model.vertexp.length = 0 ∧
      (∃ mB, parse_file (some face_only_file) mA = Parse_result.returned 0 mB)) ∧
    (∃ m0, parse_file (some face_only_file) initial_model = Parse_result.returned (-1) m0) := by
  exact ⟨⟨after_vertex_only, parse_vertex_only_file, rfl, rfl, rfl, rfl,
    by simp [after_vertex_only], rfl, parse_face_only_file_after⟩, parse_face_only_file_first⟩

/-! ### Bounding box (C21) -/

theorem init_model_center (sqrt : ℚ → ℚ) (m : Model) :
    (init_model sqrt m).center =
      { x := (m.max_coord 0 + m.min_coord 0) / 2
        y := (m.max_coord 1 + m.min_coord 1) / 2
        z := (m.max_coord 2 + m.min_coord 2) / 2 } := by
  simp only [init_model]
  split_ifs <;> rfl

/-- C21. `init_model` sets `center` to the componentwise midpoint of
`max_coord` and `min_coord`, but sets `bb_radius` to one quarter of the length
of the bounding box diagonal, `1/4 * sqrt(dx² + dy² + dz²)`.  For the box
from `(0, 0, 0)` to `(100, 0, 0)` the center is `(50, 0, 0)`, half the
diagonal (the distance from the center to a corner) is 50, and `bb_radius`
is 25. -/
theorem bb_radius_quarter_diagonal :
    (∀ (sqrt : ℚ → ℚ) (m : Model),
      (init_model sqrt m).center =
        { x := (m.max_coord 0 + m.min_coord 0) / 2
          y := (m.max_coord 1 + m.min_coord 1) / 2
          z := (m.max_coord 2 + m.min_coord 2) / 2 } ∧
      (init_model sqrt m).bb_radius = 1 / 4 * sqrt (
          (m.max_coord 0 - m.min_coord 0) * (m.max_coord 0 - m.min_coord 0)
        + (m.max_coord 1 - m.min_coord 1) * (m.max_coord 1 - m.min_coord 1)
        + (m.max_coord 2 - m.min_coord 2) * (m.max_coord 2 - m.min_coord 2))) ∧
    (init_model Rat.sqrt wide_model).center = { x := 50, y := 0, z := 0 } ∧
    1 / 2 * Rat.sqrt (
        (wide_model.max_coord 0 - wide_model.min_coord 0) *
          (wide_model.max_coord 0 - wide_model.min_coord 0)
      + (wide_model.max_coord 1 - wide_model.min_coord 1) *
          (wide_model.max_coord 1 - wide_model.min_coord 1)
      + (wide_model.max_coord 2 - wide_model.min_coord 2) *
          (wide_model.max_coord 2 - wide_model.min_coord 2)) = 50 ∧
    (init_model Rat.sqrt wide_model).bb_radius = 25 := by
  have hs : Rat.sqrt (100 * 100) = 100 := by
    rw [Rat.sqrt_eq]
    norm_num
  have h2 : ((2 : Fin 3) = 0) = False := by decide
  refine ⟨fun sqrt m => ⟨init_model_center sqrt m, init_model_bb_radius sqrt m⟩, ?_, ?_,
    wide_model_bb_radius⟩
  · rw [init_model_center]
    simp only [wide_model, initial_model, h2, if_true, if_false, one_ne_zero, add_zero]
    norm_num
  · simp only [wide_model, initial_model, h2, if_true, if_false, one_ne_zero, sub_zero,
      mul_zero, add_zero]
    rw [hs]
    norm_num

/-! ### Drag wrap-around (C22) -/

theorem mouse_motion_angle (x y : Int) (s : State) :
    (mouse_motion x y s).angle =
      if s.l_button_pressed ≠ 0 ∧ |s.eye.theta + delta_theta x s| > PI then fmod s.angle PI
      else s.angle := by
  simp only [mouse_motion, glutPostRedisplay]
  split_ifs <;> simp_all

/-- C22. In `mouse_motion` with the left button held, `eye.theta` becomes
exactly `theta + delta_theta`, with no wrapping; the variable `angle` is
replaced by `fmod(angle, PI)` when `|theta + delta_theta| > PI` and is
unchanged when `|theta + delta_theta| ≤ PI`. -/
theorem drag_wraps_angle (s : State) (x y : Int) (h : s.l_button_pressed ≠ 0) :
    (mouse_motion x y s).eye.theta = s.eye.theta + delta_theta x s ∧
    (|s.eye.theta + delta_theta x s| > PI → (mouse_motion x y s).angle = fmod s.angle PI) ∧
    (|s.eye.theta + delta_theta x s| ≤ PI → (mouse_motion x y s).angle = s.angle) := by
  refine ⟨?_, ?_, ?_⟩
  · rw [mouse_motion_theta, if_pos h]
  · intro hgt
    rw [mouse_motion_angle, if_pos ⟨h, hgt⟩]
  · intro hle
    rw [mouse_motion_angle, if_neg (fun hc => absurd hc.2 (not_lt.mpr hle))]

/-- C22, witness: with the button held, `theta = 0` and a drag of 500 pixels
in a window 1000 wide, `|theta + delta_theta| = 4 > PI`, and `angle` becomes
`fmod(angle, PI)`. -/
theorem drag_wraps_angle_witness :
    wrap_scenario.l_button_pressed ≠ 0 ∧
    |wrap_scenario.eye.theta + delta_theta 600 wrap_scenario| > PI ∧
    (mouse_motion 600 100 wrap_scenario).eye.theta = -4 ∧
    (mouse_motion 600 100 wrap_scenario).angle = fmod wrap_scenario.angle PI :=
  ⟨by decide,
   by norm_num [wrap_scenario, drag_scenario, start, delta_theta, DRAG_SPEED, PI],
   by
    rw [(drag_wraps_angle wrap_scenario 600 100 (by decide)).1]
    norm_num [wrap_scenario, drag_scenario, start, delta_theta, DRAG_SPEED],
   (drag_wraps_angle wrap_scenario 600 100 (by decide)).2.1
     (by norm_num [wrap_scenario, drag_scenario, start, delta_theta, DRAG_SPEED, PI])⟩

/-! ### Auto-rotation chains (C23) -/

theorem reachable_of_run_events (s0 : State) (es : List Event) :
    ∀ (s t : State), Reachable s0 s → run_events es s = some t → Reachable s0 t := by
  induction es with
  | nil =>
    intro s t hs h
    simp only [run_events, Option.some.injEq] at h
    subst h
    exact hs
  | cons e es ih =>
    intro s t hs h
    simp only [run_events, Option.bind_eq_some] at h
    obtain ⟨u, hu, ht⟩ := h
    exact ih u t (Reachable.step e s u hs hu) ht

theorem key_space_twice (s : State) (h : s.rotate ≠ 0) :
    ∃ t, run_events [Event.key ' ', Event.key ' '] s = some t ∧
      t.timers = s.timers ++ [Timer.updateAngle 0] ∧ t.rotate = 1 ∧
      t.angle = s.angle ∧ t.angularSpeed = s.angularSpeed := by
  simp only [run_events, dispatch, key_space, Option.some_bind, Option.bind_some]
  refine ⟨_, rfl, ?_, ?_, ?_, ?_⟩ <;>
    simp [glutPostRedisplay, glutTimerFunc, h]

theorem fire_updateAngle (v : Int) (s : State) (hm : Timer.updateAngle v ∈ s.timers) :
    fire (Timer.updateAngle v) s =
      some (updateAngle v { s with timers := s.timers.erase (Timer.updateAngle v) }) := by
  simp only [fire, if_pos hm]

theorem fire_updateAngle_step (s : State) (hm : Timer.updateAngle 0 ∈ s.timers)
    (hr : s.rotate ≠ 0) (ha : s.angle + s.angularSpeed ≤ 360) :
    ∃ t, fire (Timer.updateAngle 0) s = some t ∧
      t.timers = s.timers.erase (Timer.updateAngle 0) ++ [Timer.updateAngle 0] ∧
      t.rotate = s.rotate ∧ t.angle = s.angle + s.angularSpeed ∧
      t.angularSpeed = s.angularSpeed := by
  refine ⟨_, fire_updateAngle 0 s hm, ?_, ?_, ?_, ?_⟩
  · rw [updateAngle_timers, if_pos hr]
  · rw [updateAngle_rotate]
  · rw [updateAngle_angle, if_neg (not_lt.mpr ha)]
  · rw [updateAngle_angularSpeed]

/-- C23. From program start (one `updateAngle` timer pending, `rotate = 1`),
two `key(' ')` presses before the pending timer fires leave `rotate = 1` with
two `updateAngle` timers pending.  Both then fire and reschedule themselves:
after the two firings `angle` has advanced by two `angularSpeed` steps (from 0
to 6) and two `updateAngle` timers are pending again. -/
theorem double_toggle_two_chains :
    (start 10 1).timers.count (Timer.updateAngle 0) = 1 ∧ (start 10 1).rotate = 1 ∧
    (start 10 1).angle = 0 ∧ (start 10 1).angularSpeed = 3 ∧
    ∃ s2, run_events [Event.key ' ', Event.key ' '] (start 10 1) = some s2 ∧
      Reachable (start 10 1) s2 ∧ s2.rotate = 1 ∧
      s2.timers.count (Timer.updateAngle 0) = 2 ∧
      ∃ s4, run_events [Event.timer (Timer.updateAngle 0), Event.timer (Timer.updateAngle 0)]
          s2 = some s4 ∧
        Reachable (start 10 1) s4 ∧ s4.angle = 6 ∧
        s4.timers.count (Timer.updateAngle 0) = 2 := by
  refine ⟨by decide, rfl, rfl, rfl, ?_⟩
  obtain ⟨s2, h2, t2, r2, a2, v2⟩ := key_space_twice (start 10 1) (by decide)
  have t2' : s2.timers = [Timer.updateAngle 0, Timer.updateAngle 0] := by
    rw [t2]; rfl
  have a2' : s2.angle = 0 := by rw [a2]; rfl
  have v2' : s2.angularSpeed = 3 := by rw [v2]; rfl
  obtain ⟨s3, h3, t3, r3, a3, v3⟩ := fire_updateAngle_step s2 (by rw [t2']; simp)
    (by rw [r2]; decide) (by rw [a2', v2']; norm_num)
  have t3' : s3.timers = [Timer.updateAngle 0, Timer.updateAngle 0] := by
    rw [t3, t2']; simp
  obtain ⟨s4, h4, t4, _, a4, _⟩ := fire_updateAngle_step s3 (by rw [t3']; simp)
    (by rw [r3, r2]; decide) (by rw [a3, v3, a2', v2']; norm_num)
  have h24 : run_events [Event.timer (Timer.updateAngle 0), Event.timer (Timer.updateAngle 0)]
      s2 = some s4 := by
    simp only [run_events, dispatch, h3, Option.some_bind, h4]
  have hr2 := reachable_of_run_events (start 10 1) _ _ _ Reachable.start h2
  refine ⟨s2, h2, hr2, r2, by rw [t2']; decide, s4, h24,
    reachable_of_run_events (start 10 1) _ _ _ hr2 h24, ?_, ?_⟩
  · rw [a4, a3, v3, a2', v2']; norm_num
  · rw [t4, t3']; decide

end MeshViewer
